import Mathlib

/-!
Verification development for the Cabo card-game backend.

The definitions below are a shallow embedding of the Python sources:
  * `backend/services/game_manager.py`   (deck, cards, players, the game engine),
  * `backend/services/message_sequencer.py` (per-room sequence numbers),
  * `backend/services/connection_manager.py` (session delivery and outbox).

Modelling conventions:
  * Python lists become Lean `List`s; `list.pop()` (from the end) becomes
    `getLast?`/`dropLast`; `dict`s become association lists where a `set`
    replaces the first matching key or appends a fresh one (insertion order).
  * `uuid4` timer ids become numbers drawn from a counter `next_timer_id`.
  * `time.time()` becomes the field `now : Nat` (seconds); scheduling a
    timeout with delay `d` stores expiry `now + d`.
  * `random.randint(0, n-1)` consumes the head of an externally supplied
    stream `rng : List Nat`, reduced into range with `% n`.
  * Handlers are pure: `CaboGame → args → HandlerResult × CaboGame`.
  * Event payload dictionaries become the typed `EventData` constructors;
    `str(card)` payload entries carry the `Card` itself; timestamps are not
    modelled.  Broadcast/checkpoint callbacks are not modelled: the list of
    emitted events is the observable.
-/

namespace Cabo

/-- `Suit` enum from `game_manager.py`. -/
inductive Suit where
  | hearts
  | diamonds
  | clubs
  | spades
deriving DecidableEq, Repr

/-- `Rank` enum from `game_manager.py` (JOKER has enum value 0). -/
inductive Rank where
  | ace
  | two
  | three
  | four
  | five
  | six
  | seven
  | eight
  | nine
  | ten
  | jack
  | queen
  | king
  | joker
deriving DecidableEq, Repr

/-- The numeric `.value` of the `Rank` enum member. -/
def Rank.val : Rank → Nat
  | .ace => 1
  | .two => 2
  | .three => 3
  | .four => 4
  | .five => 5
  | .six => 6
  | .seven => 7
  | .eight => 8
  | .nine => 9
  | .ten => 10
  | .jack => 11
  | .queen => 12
  | .king => 13
  | .joker => 0

/-- `Card` dataclass: a rank and an optional suit (jokers have no suit). -/
structure Card where
  rank : Rank
  suit : Option Suit := none
deriving DecidableEq, Repr

instance : Inhabited Card := ⟨⟨Rank.joker, none⟩⟩

/-- `Card.value` property: scoring value of a card. -/
def Card.value (c : Card) : Int :=
  if c.rank = Rank.joker then 0
  else if c.rank = Rank.king ∧ (c.suit = some Suit.hearts ∨ c.suit = some Suit.diamonds) then -1
  else (c.rank.val : Int)

/-- `Card.is_special` property: `rank.value in [7, 8, 9, 10, 11, 12, 13]`. -/
def Card.is_special (c : Card) : Bool :=
  c.rank.val ∈ [7, 8, 9, 10, 11, 12, 13]

/-- `Player` dataclass. -/
structure Player where
  player_id : String
  name : String
  hand : List Card := []
  has_called_cabo : Bool := false
deriving DecidableEq, Repr

instance : Inhabited Player := ⟨⟨"", "", [], false⟩⟩

/-- `Player.add_card`: append a card to the hand. -/
def Player.add_card (p : Player) (c : Card) : Player :=
  { p with hand := p.hand ++ [c] }

/-- `Player.replace_card`: put `new_card` at `index`, return the old card.
The callers establish `0 ≤ index < hand.length`; the index arrives as a
Python `int`, hence `Int` here. -/
def Player.replace_card (p : Player) (index : Int) (new_card : Card) : Card × Player :=
  (p.hand.getD index.toNat default, { p with hand := p.hand.set index.toNat new_card })

/-- `Player.get_score`: sum of the card values in the hand. -/
def Player.get_score (p : Player) : Int :=
  (p.hand.map Card.value).sum

/-- `GamePhase` enum. -/
inductive GamePhase where
  | setup
  | playing
  | waitingForSpecialAction
  | kingViewPhase
  | kingSwapPhase
  | stackCalled
  | turnTransition
  | ended
deriving DecidableEq, Repr

/-- The game messages (player intents and system messages), with their
payloads.  Python `int` indices are kept as `Int` so that the
`0 <= i < len(...)` validations are modelled faithfully. -/
inductive GameMessage where
  | drawCard (player_id : String)
  | playDrawnCard (player_id : String)
  | replaceAndPlay (player_id : String) (hand_index : Int)
  | callStack (player_id : String)
  | executeStack (player_id : String) (card_index : Int) (target_player_id : Option String)
  | callCabo (player_id : String)
  | viewOwnCard (player_id : String) (card_index : Int)
  | viewOpponentCard (player_id : String) (target_player_id : String) (card_index : Int)
  | swapCards (player_id : String) (own_index : Int) (target_player_id : String) (target_index : Int)
  | kingViewCard (player_id : String) (target_player_id : String) (card_index : Int)
  | kingSwapCards (player_id : String) (own_index : Int) (target_player_id : String) (target_index : Int)
  | kingSkipSwap (player_id : String)
  | stackTimeoutMsg
  | specialActionTimeoutMsg
  | turnTransitionTimeoutMsg
  | setupTimeoutMsg
  | nextTurn
  | endGame
deriving DecidableEq, Repr

/-- The messages a client can inject through the orchestrator
(`GameOrchestrator._deserialize_message`); system messages are generated
only by the engine itself. -/
def GameMessage.isPlayerIntent : GameMessage → Bool
  | .drawCard _ | .playDrawnCard _ | .replaceAndPlay _ _ | .callStack _
  | .executeStack _ _ _ | .callCabo _ | .viewOwnCard _ _
  | .viewOpponentCard _ _ _ | .swapCards _ _ _ _ | .kingViewCard _ _ _
  | .kingSwapCards _ _ _ _ | .kingSkipSwap _ => true
  | _ => false

/-- One row of the `END_GAME` score table: `(player_id, name, score)`. -/
structure ScoreRow where
  player_id : String
  name : String
  score : Int
deriving DecidableEq, Repr

instance : Inhabited ScoreRow := ⟨⟨"", "", 0⟩⟩

/-- Typed transcriptions of the event payload dictionaries. -/
inductive EventData where
  | gameStarted (phase : String) (setup_time_seconds : Nat)
  | cardDrawn (player_id : String) (card : Card)
  | cardPlayed (player_id : String) (card : Card) (special_effect : Bool)
  | cardReplacedAndPlayed (player_id : String) (played_card : Card) (hand_index : Int)
      (special_effect : Bool)
  | gamePhaseChanged (phase : String) (current_player : String)
      (special_action_type : Option String)
  | stackCalled (caller : String) (caller_id : String) (target_card : Card)
  | stackSuccessSelf (player : String) (discarded_card : Card)
  | stackSuccessOpponent (player : String) (target : String) (given_card : Card)
  | stackFailed (player : String) (attempted_card : Card) (penalty : Bool)
  | stackTimeout (player : String) (penalty : Bool)
  | caboCalled (player : String) (player_id : String)
  | turnChanged (current_player : String) (current_player_name : String)
  | gameEnded (winner_id : String) (winner_name : String) (final_scores : List ScoreRow)
  | cardViewed (player : String) (card : Card)
  | opponentCardViewed (viewer : String) (target : String) (card : Card)
  | cardsSwapped (player : String) (target : String) (player_card : Card) (target_card : Card)
  | kingCardViewed (viewer : String) (target : String) (card : Card)
  | kingCardsSwapped (player : String) (target : String) (player_card : Card) (target_card : Card)
  | kingSwapSkipped (player : String)
  | specialActionTimeout
deriving DecidableEq, Repr

/-- `GameEvent`: a stable string event type together with its payload. -/
structure GameEvent where
  event_type : String
  data : EventData
deriving DecidableEq, Repr

/-- The dictionary a handler returns: success flag, events (the source's
single `"event"` key and the `"events"` list are merged, single first, in
the order `process_messages` broadcasts them), follow-up messages, and the
error string of a rejection. -/
structure HandlerResult where
  success : Bool
  events : List GameEvent := []
  next_messages : List GameMessage := []
  error : Option String := none
deriving DecidableEq, Repr

/-- The visibility map `temporarily_viewed_cards`:
`viewer_id -> set of (target_player_id, card_index)`; the `defaultdict(set)`
becomes an association list of lists, with membership-checked insertion. -/
def ViewedMap := List (String × List (String × Int))
deriving DecidableEq, Repr

/-- Read a viewer's set (`defaultdict` read of a missing key gives `∅`). -/
def ViewedMap.get (m : ViewedMap) (viewer : String) : List (String × Int) :=
  match List.lookup viewer (m : List (String × List (String × Int))) with
  | some s => s
  | none => []

/-- `self.state.temporarily_viewed_cards[viewer].add(pr)`. -/
def ViewedMap.add (m : ViewedMap) (viewer : String) (pr : String × Int) : ViewedMap :=
  let rec go : List (String × List (String × Int)) → List (String × List (String × Int))
    | [] => [(viewer, [pr])]
    | (v, s) :: rest =>
      if v = viewer then (v, if pr ∈ s then s else s ++ [pr]) :: rest
      else (v, s) :: go rest
  go (m : List (String × List (String × Int)))

/-- `GameState` dataclass. -/
structure GameState where
  phase : GamePhase
  current_player_index : Nat
  drawn_card : Option Card := none
  played_card : Option Card := none
  stack_caller : Option String := none
  stack_timer_id : Option Nat := none
  special_action_player : Option String := none
  special_action_type : Option String := none
  special_action_timer_id : Option Nat := none
  king_viewed_card : Option Card := none
  king_viewed_player : Option String := none
  king_viewed_index : Option Int := none
  turn_transition_timer_id : Option Nat := none
  setup_timer_id : Option Nat := none
  cabo_caller : Option String := none
  final_round_started : Bool := false
  winner : Option String := none
  temporarily_viewed_cards : ViewedMap := []
deriving DecidableEq, Repr

/-- The `CaboGame` object.  The deck draws from the END of the list
(Python's `list.pop()`); the message queue is FIFO with the head processed
first; `pending_timeouts` maps timer id to expiry time. -/
structure CaboGame where
  deck : List Card
  discard_pile : List Card := []
  players : List Player
  state : GameState
  message_queue : List GameMessage := []
  pending_timeouts : List (Nat × Nat) := []
  next_timer_id : Nat := 0
  now : Nat := 0
  rng : List Nat := []
deriving DecidableEq, Repr

/-- `Deck.draw`: `self.cards.pop() if self.cards else None` — the top of the
deck is the END of the list. -/
def deckDraw (deck : List Card) : Option Card × List Card :=
  (deck.getLast?, deck.dropLast)

/-- `CaboGame.get_current_player` (source indexes `players` directly; an
out-of-range index would raise, so the default is never reached in
operation). -/
def CaboGame.get_current_player (g : CaboGame) : Player :=
  g.players.getD g.state.current_player_index default

/-- `CaboGame.get_player_by_id`: first player with the given id. -/
def CaboGame.get_player_by_id (g : CaboGame) (pid : String) : Option Player :=
  g.players.find? (fun p => p.player_id = pid)

/-- `CaboGame.is_cabo_called`. -/
def CaboGame.is_cabo_called (g : CaboGame) : Bool :=
  g.state.cabo_caller.isSome

/-- Replace the first player with the given id (Python mutates the object
returned by `get_player_by_id`, which aliases into `self.players`). -/
def CaboGame.updatePlayer (g : CaboGame) (pid : String) (f : Player → Player) : CaboGame :=
  let rec go : List Player → List Player
    | [] => []
    | p :: rest => if p.player_id = pid then f p :: rest else p :: go rest
  { g with players := go g.players }

/-- `dict.pop(key, None)` on `pending_timeouts`. -/
def timeoutsPop (l : List (Nat × Nat)) (key : Nat) : List (Nat × Nat) :=
  l.filter (fun e => e.1 ≠ key)

/-- `CaboGame._schedule_timeout`: fresh id, expiry `now + delay` (the message
argument is ignored by the source as well — `_check_timeouts` later decides
which message to enqueue from the state's timer-id fields). -/
def CaboGame.schedule_timeout (g : CaboGame) (delay : Nat) : Nat × CaboGame :=
  (g.next_timer_id,
   { g with pending_timeouts := g.pending_timeouts ++ [(g.next_timer_id, g.now + delay)],
            next_timer_id := g.next_timer_id + 1 })

/-- `random.randint(0, n - 1)`, modelled by consuming the head of the
supplied `rng` stream, reduced into range. -/
def CaboGame.randPick (g : CaboGame) (n : Nat) : Nat × CaboGame :=
  ((g.rng.headD 0) % n, { g with rng := g.rng.tail })

/-- `CaboGame._clear_stack_state`. -/
def CaboGame.clear_stack_state (g : CaboGame) : CaboGame :=
  let g :=
    match g.state.stack_timer_id with
    | some tid =>
        { g with pending_timeouts := timeoutsPop g.pending_timeouts tid,
                 state := { g.state with stack_timer_id := none } }
    | none => g
  { g with state := { g.state with stack_caller := none, phase := GamePhase.playing } }

/-- `CaboGame._clear_special_action_state`. -/
def CaboGame.clear_special_action_state (g : CaboGame) : CaboGame :=
  let g :=
    match g.state.special_action_timer_id with
    | some tid =>
        { g with pending_timeouts := timeoutsPop g.pending_timeouts tid,
                 state := { g.state with special_action_timer_id := none } }
    | none => g
  { g with state := { g.state with special_action_player := none, special_action_type := none } }

/-- `CaboGame._clear_king_state`. -/
def CaboGame.clear_king_state (g : CaboGame) : CaboGame :=
  { g with state := { g.state with king_viewed_card := none, king_viewed_player := none,
                                   king_viewed_index := none } }

/-- `CaboGame._transition_after_special_action`.  The source's return value
(an event dictionary in the no-stack branch) is discarded by every caller,
so the model returns only the new game. -/
def CaboGame.transition_after_special_action (g : CaboGame) : CaboGame :=
  if g.state.stack_caller ≠ none then
    let (tid, g) := g.schedule_timeout 30
    { g with state := { g.state with phase := GamePhase.stackCalled, stack_timer_id := some tid } }
  else
    let (tid, g) := g.schedule_timeout 5
    { g with state := { g.state with phase := GamePhase.turnTransition,
                                     turn_transition_timer_id := some tid } }

/-- `CaboGame._get_special_action_type`. -/
def CaboGame.get_special_action_type (c : Card) : String :=
  if c.rank.val ∈ [7, 8] then "view_own"
  else if c.rank.val ∈ [9, 10] then "view_opponent"
  else if c.rank.val ∈ [11, 12] then "swap_opponent"
  else if c.rank.val = 13 then "king_effect"
  else "none"

/-- `return {"success": False, "error": err}` — rejection leaves the game as
the handler received it (unless the handler mutated it earlier, as
`_handle_execute_stack` does). -/
def rejected (err : String) (g : CaboGame) : HandlerResult × CaboGame :=
  (⟨false, [], [], some err⟩, g)

/-- `CaboGame._handle_draw_card`. -/
def CaboGame.handle_draw_card (g : CaboGame) (pid : String) : HandlerResult × CaboGame :=
  if g.state.phase ≠ GamePhase.playing then rejected "Game not in playing phase" g
  else if g.get_current_player.player_id ≠ pid then rejected "Not your turn" g
  else if g.state.drawn_card ≠ none then rejected "Card already drawn this turn" g
  else
    match deckDraw g.deck with
    | (none, _) => rejected "Deck is empty" g
    | (some card, deck') =>
      (⟨true, [⟨"card_drawn", .cardDrawn pid card⟩], [], none⟩,
       { g with deck := deck', state := { g.state with drawn_card := some card } })

/-- Shared tail of `_handle_play_drawn_card` / `_handle_replace_and_play`:
special-effect dispatch after the played card reached the discard pile. -/
def CaboGame.afterPlay (g : CaboGame) (pid : String) (card : Card) (firstEvent : GameEvent) :
    HandlerResult × CaboGame :=
  if card.is_special then
    let g := { g with state := { g.state with special_action_player := some pid } }
    let (tid, g) := g.schedule_timeout 30
    let g := { g with state := { g.state with special_action_timer_id := some tid } }
    if card.rank = Rank.king then
      let g := { g with state := { g.state with phase := GamePhase.kingViewPhase } }
      (⟨true,
        [firstEvent,
         ⟨"game_phase_changed", .gamePhaseChanged "king_view_phase"
            g.get_current_player.player_id none⟩], [], none⟩, g)
    else
      let saType := CaboGame.get_special_action_type card
      let g := { g with state := { g.state with phase := GamePhase.waitingForSpecialAction,
                                                special_action_type := some saType } }
      (⟨true,
        [firstEvent,
         ⟨"game_phase_changed", .gamePhaseChanged "waiting_for_special_action"
            g.get_current_player.player_id (some saType)⟩], [], none⟩, g)
  else
    let g := { g with state := { g.state with phase := GamePhase.turnTransition } }
    let (tid, g) := g.schedule_timeout 5
    let g := { g with state := { g.state with turn_transition_timer_id := some tid } }
    (⟨true,
      [firstEvent,
       ⟨"game_phase_changed", .gamePhaseChanged "turn_transition"
          g.get_current_player.player_id none⟩], [], none⟩, g)

/-- `CaboGame._handle_play_drawn_card`. -/
def CaboGame.handle_play_drawn_card (g : CaboGame) (pid : String) : HandlerResult × CaboGame :=
  match g.state.drawn_card with
  | none => rejected "No card drawn" g
  | some card =>
    if g.get_current_player.player_id ≠ pid then rejected "Not your turn" g
    else
      let g := { g with state := { g.state with played_card := some card, drawn_card := none },
                        discard_pile := g.discard_pile ++ [card] }
      g.afterPlay pid card ⟨"card_played", .cardPlayed pid card card.is_special⟩

/-- `CaboGame._handle_replace_and_play`. -/
def CaboGame.handle_replace_and_play (g : CaboGame) (pid : String) (hand_index : Int) :
    HandlerResult × CaboGame :=
  match g.state.drawn_card with
  | none => rejected "No card drawn" g
  | some drawn =>
    let cp := g.get_current_player
    if cp.player_id ≠ pid then rejected "Not your turn" g
    else if ¬ (0 ≤ hand_index ∧ hand_index < (cp.hand.length : Int)) then
      rejected "Invalid hand index" g
    else
      let (old_card, cp') := cp.replace_card hand_index drawn
      let g := { g with players := g.players.set g.state.current_player_index cp',
                        state := { g.state with played_card := some old_card, drawn_card := none },
                        discard_pile := g.discard_pile ++ [old_card] }
      g.afterPlay pid old_card
        ⟨"card_replaced_and_played",
         .cardReplacedAndPlayed pid old_card hand_index old_card.is_special⟩

/-- `CaboGame._handle_call_stack`. -/
def CaboGame.handle_call_stack (g : CaboGame) (pid : String) : HandlerResult × CaboGame :=
  match g.state.played_card with
  | none => rejected "No card to stack on" g
  | some playedCard =>
    if g.state.phase = GamePhase.stackCalled ∨ g.state.stack_caller ≠ none then
      rejected "Another player already called STACK" g
    else
      match g.get_player_by_id pid with
      | none => rejected "Player not found" g
      | some player =>
        if g.state.phase = GamePhase.waitingForSpecialAction ∨
           g.state.phase = GamePhase.kingViewPhase ∨
           g.state.phase = GamePhase.kingSwapPhase then
          (⟨true, [⟨"stack_called", .stackCalled player.name pid playedCard⟩], [], none⟩,
           { g with state := { g.state with stack_caller := some pid } })
        else
          let g := { g with state := { g.state with phase := GamePhase.stackCalled,
                                                    stack_caller := some pid } }
          let (tid, g) := g.schedule_timeout 30
          let g := { g with state := { g.state with stack_timer_id := some tid } }
          let g :=
            match g.state.turn_transition_timer_id with
            | some t => { g with pending_timeouts := timeoutsPop g.pending_timeouts t }
            | none => g
          let g := { g with state := { g.state with turn_transition_timer_id := none } }
          (⟨true, [⟨"stack_called", .stackCalled player.name pid playedCard⟩], [], none⟩, g)

/-- `CaboGame._handle_execute_stack`.  Note that the source calls
`_clear_stack_state()` BEFORE comparing ranks or resolving the target, so a
"Target player not found" rejection still returns a mutated game.  A missing
`played_card` would raise in the source (`played_card.rank`); the `Option`
comparison below sends that impossible-in-operation case to the mismatch
branch. -/
def CaboGame.handle_execute_stack (g : CaboGame) (pid : String) (card_index : Int)
    (target_player_id : Option String) : HandlerResult × CaboGame :=
  if g.state.stack_caller ≠ some pid then rejected "You did not call STACK" g
  else if g.state.phase ≠ GamePhase.stackCalled then rejected "Not in stack phase" g
  else
    match g.get_player_by_id pid with
    | none => rejected "Player not found" g
    | some player =>
      if ¬ (0 ≤ card_index ∧ card_index < (player.hand.length : Int)) then
        rejected "Invalid card index" g
      else
        let stack_card := player.hand.getD card_index.toNat default
        let playedRank := g.state.played_card.map Card.rank
        let g := g.clear_stack_state
        if some stack_card.rank = playedRank then
          match target_player_id with
          | none =>
            let g := g.updatePlayer pid (fun p => { p with hand := p.hand.eraseIdx card_index.toNat })
            let g := { g with discard_pile := g.discard_pile ++ [stack_card] }
            (⟨true, [⟨"stack_success", .stackSuccessSelf player.name stack_card⟩],
              [GameMessage.nextTurn], none⟩, g)
          | some tgt =>
            match g.get_player_by_id tgt with
            | none => rejected "Target player not found" g
            | some target_player =>
              let g := g.updatePlayer pid (fun p => { p with hand := p.hand.eraseIdx card_index.toNat })
              let g := g.updatePlayer tgt (fun p => p.add_card stack_card)
              (⟨true,
                [⟨"stack_success", .stackSuccessOpponent player.name target_player.name stack_card⟩],
                [GameMessage.nextTurn], none⟩, g)
        else
          let (c?, deck') := deckDraw g.deck
          let g := { g with deck := deck' }
          let g :=
            match c? with
            | some c => g.updatePlayer pid (fun p => p.add_card c)
            | none => g
          (⟨true, [⟨"stack_failed", .stackFailed player.name stack_card c?.isSome⟩],
            [GameMessage.nextTurn], none⟩, g)

/-- `CaboGame._handle_stack_timeout`. -/
def CaboGame.handle_stack_timeout (g : CaboGame) : HandlerResult × CaboGame :=
  if g.state.phase ≠ GamePhase.stackCalled then rejected "Not in stack phase" g
  else
    let callerOpt :=
      match g.state.stack_caller with
      | some cid => g.get_player_by_id cid
      | none => none
    let (penalty, g) :=
      match callerOpt with
      | some caller =>
        let (c?, deck') := deckDraw g.deck
        let g := { g with deck := deck' }
        match c? with
        | some c => (true, g.updatePlayer caller.player_id (fun p => p.add_card c))
        | none => (false, g)
      | none => (false, g)
    let g := g.clear_stack_state
    (⟨true,
      [⟨"stack_timeout",
        .stackTimeout (match callerOpt with | some c => c.name | none => "Unknown") penalty⟩],
      [GameMessage.nextTurn], none⟩, g)

/-- `CaboGame._handle_call_cabo`. -/
def CaboGame.handle_call_cabo (g : CaboGame) (pid : String) : HandlerResult × CaboGame :=
  if ¬ (g.state.phase = GamePhase.playing ∨
        g.state.phase = GamePhase.waitingForSpecialAction) then
    rejected "Cannot call Cabo in current phase" g
  else
    let cp := g.get_current_player
    if cp.player_id ≠ pid then rejected "Not your turn" g
    else if g.state.drawn_card ≠ none then rejected "Cannot call Cabo after drawing a card" g
    else if g.is_cabo_called then rejected "Cabo already called" g
    else
      let g := { g with players := g.players.set g.state.current_player_index
                                     { cp with has_called_cabo := true },
                        state := { g.state with cabo_caller := some pid,
                                                final_round_started := true } }
      (⟨true, [⟨"cabo_called", .caboCalled cp.name pid⟩], [GameMessage.nextTurn], none⟩, g)

/-- Seat advance shared by the branches of `_handle_next_turn`. -/
def CaboGame.advanceTurn (g : CaboGame) : HandlerResult × CaboGame :=
  let g := { g with state := { g.state with
                current_player_index := (g.state.current_player_index + 1) % g.players.length,
                phase := GamePhase.playing,
                drawn_card := none,
                played_card := none } }
  (⟨true, [⟨"turn_changed",
            .turnChanged g.get_current_player.player_id g.get_current_player.name⟩],
    [], none⟩, g)

/-- `CaboGame._handle_next_turn`.  A `cabo_caller` naming no player would
raise `ValueError` in the source (`players.index(None)`); that
impossible-in-operation case is modelled as a plain advance. -/
def CaboGame.handle_next_turn (g : CaboGame) : HandlerResult × CaboGame :=
  match g.state.cabo_caller with
  | some cc =>
    let next_index := (g.state.current_player_index + 1) % g.players.length
    (match g.players.findIdx? (fun p => p.player_id = cc) with
     | some k =>
       if next_index = k then (⟨true, [], [GameMessage.endGame], none⟩, g)
       else g.advanceTurn
     | none => g.advanceTurn)
  | none => g.advanceTurn

/-- Stable ascending insertion used to model Python's stable
`scores.sort(key=lambda x: x[2])`: an element is inserted BEFORE the first
already-placed row of greater-or-equal score, so earlier rows (lower seat
index) stay first among equal scores. -/
def insRow (x : ScoreRow) : List ScoreRow → List ScoreRow
  | [] => [x]
  | y :: ys => if x.score ≤ y.score then x :: y :: ys else y :: insRow x ys

/-- Stable sort of the score table by ascending score. -/
def sortScores : List ScoreRow → List ScoreRow
  | [] => []
  | x :: xs => insRow x (sortScores xs)

/-- `CaboGame._handle_end_game`.  `scores[0]` on an empty player list would
raise in the source; the `headD` default is never reached in operation. -/
def CaboGame.handle_end_game (g : CaboGame) : HandlerResult × CaboGame :=
  let g := { g with state := { g.state with phase := GamePhase.ended } }
  let scores := g.players.map (fun p => ScoreRow.mk p.player_id p.name p.get_score)
  let sorted := sortScores scores
  let winRow := sorted.headD default
  let g := { g with state := { g.state with winner := some winRow.player_id } }
  (⟨true, [⟨"game_ended", .gameEnded winRow.player_id winRow.name sorted⟩], [], none⟩, g)

/-- `CaboGame._handle_view_own_card`. -/
def CaboGame.handle_view_own_card (g : CaboGame) (pid : String) (card_index : Int) :
    HandlerResult × CaboGame :=
  if g.state.special_action_player ≠ some pid then rejected "Not your special action" g
  else if g.state.phase ≠ GamePhase.waitingForSpecialAction then
    rejected "Not in special action phase" g
  else
    match g.get_player_by_id pid with
    | none => rejected "Player not found" g
    | some player =>
      if ¬ (0 ≤ card_index ∧ card_index < (player.hand.length : Int)) then
        rejected "Invalid card index" g
      else
        let vm := g.state.temporarily_viewed_cards.add player.player_id
                    (player.player_id, card_index)
        let g := { g with state := { g.state with temporarily_viewed_cards := vm } }
        let g := g.clear_special_action_state
        let g := g.transition_after_special_action
        (⟨true, [⟨"card_viewed",
                  .cardViewed player.name (player.hand.getD card_index.toNat default)⟩],
          [], none⟩, g)

/-- `CaboGame._handle_view_opponent_card`. -/
def CaboGame.handle_view_opponent_card (g : CaboGame) (pid : String) (tgt : String)
    (card_index : Int) : HandlerResult × CaboGame :=
  if g.state.special_action_player ≠ some pid then rejected "Not your special action" g
  else if g.state.special_action_type ≠ some "view_opponent" then
    rejected "Not in view opponent phase" g
  else if g.state.phase ≠ GamePhase.waitingForSpecialAction then
    rejected "Not in special action phase" g
  else if tgt = pid then rejected "Cannot target yourself" g
  else
    match g.get_player_by_id tgt with
    | none => rejected "Target player not found" g
    | some target_player =>
      if ¬ (0 ≤ card_index ∧ card_index < (target_player.hand.length : Int)) then
        rejected "Invalid card index" g
      else
        let viewed_card := target_player.hand.getD card_index.toNat default
        let vm := g.state.temporarily_viewed_cards.add pid (tgt, card_index)
        let g := { g with state := { g.state with temporarily_viewed_cards := vm } }
        let g := g.clear_special_action_state
        let g := g.transition_after_special_action
        (⟨true, [⟨"opponent_card_viewed",
                  .opponentCardViewed ((g.get_player_by_id pid).getD default).name
                    target_player.name viewed_card⟩], [], none⟩, g)

/-- `CaboGame._handle_swap_cards`. -/
def CaboGame.handle_swap_cards (g : CaboGame) (pid : String) (own_index : Int) (tgt : String)
    (target_index : Int) : HandlerResult × CaboGame :=
  if g.state.special_action_player ≠ some pid then rejected "Not your special action" g
  else if g.state.phase ≠ GamePhase.waitingForSpecialAction then
    rejected "Not in special action phase" g
  else if tgt = pid then rejected "Cannot swap with yourself" g
  else
    match g.get_player_by_id pid, g.get_player_by_id tgt with
    | some player, some target_player =>
      if ¬ (0 ≤ own_index ∧ own_index < (player.hand.length : Int)) then
        rejected "Invalid own card index" g
      else if ¬ (0 ≤ target_index ∧ target_index < (target_player.hand.length : Int)) then
        rejected "Invalid target card index" g
      else
        let player_card := player.hand.getD own_index.toNat default
        let target_card := target_player.hand.getD target_index.toNat default
        let g := g.updatePlayer pid (fun p => { p with hand := p.hand.set own_index.toNat target_card })
        let g := g.updatePlayer tgt (fun p => { p with hand := p.hand.set target_index.toNat player_card })
        let g := g.clear_special_action_state
        let g := g.transition_after_special_action
        (⟨true, [⟨"cards_swapped",
                  .cardsSwapped player.name target_player.name player_card target_card⟩],
          [], none⟩, g)
    | _, _ => rejected "Player not found" g

/-- `CaboGame._handle_king_view_card`. -/
def CaboGame.handle_king_view_card (g : CaboGame) (pid : String) (tgt : String)
    (card_index : Int) : HandlerResult × CaboGame :=
  if g.state.special_action_player ≠ some pid then rejected "Not your special action" g
  else if g.state.phase ≠ GamePhase.kingViewPhase then rejected "Not in King view phase" g
  else
    match g.get_player_by_id tgt with
    | none => rejected "Target player not found" g
    | some target_player =>
      if ¬ (0 ≤ card_index ∧ card_index < (target_player.hand.length : Int)) then
        rejected "Invalid card index" g
      else
        let viewed := target_player.hand.getD card_index.toNat default
        let vm := g.state.temporarily_viewed_cards.add pid (tgt, card_index)
        let g := { g with state := { g.state with
                     king_viewed_card := some viewed,
                     king_viewed_player := some tgt,
                     king_viewed_index := some card_index,
                     temporarily_viewed_cards := vm } }
        let g := { g with state := { g.state with phase := GamePhase.kingSwapPhase } }
        (⟨true, [⟨"king_card_viewed",
                  .kingCardViewed ((g.get_player_by_id pid).getD default).name
                    target_player.name viewed⟩], [], none⟩, g)

/-- `CaboGame._handle_king_swap_cards`. -/
def CaboGame.handle_king_swap_cards (g : CaboGame) (pid : String) (own_index : Int)
    (tgt : String) (target_index : Int) : HandlerResult × CaboGame :=
  if g.state.special_action_player ≠ some pid then rejected "Not your special action" g
  else if g.state.phase ≠ GamePhase.kingSwapPhase then rejected "Not in King swap phase" g
  else
    match g.get_player_by_id pid, g.get_player_by_id tgt with
    | some player, some target_player =>
      if ¬ (0 ≤ own_index ∧ own_index < (player.hand.length : Int)) then
        rejected "Invalid own card index" g
      else if ¬ (0 ≤ target_index ∧ target_index < (target_player.hand.length : Int)) then
        rejected "Invalid target card index" g
      else
        let player_card := player.hand.getD own_index.toNat default
        let target_card := target_player.hand.getD target_index.toNat default
        let g := g.updatePlayer pid (fun p => { p with hand := p.hand.set own_index.toNat target_card })
        let g := g.updatePlayer tgt (fun p => { p with hand := p.hand.set target_index.toNat player_card })
        let g := g.clear_king_state
        let g := g.clear_special_action_state
        let g := g.transition_after_special_action
        (⟨true, [⟨"king_cards_swapped",
                  .kingCardsSwapped player.name target_player.name player_card target_card⟩],
          [], none⟩, g)
    | _, _ => rejected "Player not found" g

/-- `CaboGame._handle_king_skip_swap`. -/
def CaboGame.handle_king_skip_swap (g : CaboGame) (pid : String) : HandlerResult × CaboGame :=
  if g.state.special_action_player ≠ some pid then rejected "Not your special action" g
  else if g.state.phase ≠ GamePhase.kingSwapPhase then rejected "Not in King swap phase" g
  else
    let g := g.clear_king_state
    let g := g.clear_special_action_state
    let g := g.transition_after_special_action
    (⟨true, [⟨"king_swap_skipped",
              .kingSwapSkipped ((g.get_player_by_id pid).getD default).name⟩], [], none⟩, g)

/-- `CaboGame._handle_special_action_timeout` (always succeeds). -/
def CaboGame.handle_special_action_timeout (g : CaboGame) : HandlerResult × CaboGame :=
  let g := g.clear_special_action_state
  let g := g.clear_king_state
  let g := g.transition_after_special_action
  (⟨true, [⟨"special_action_timeout", .specialActionTimeout⟩], [], none⟩, g)

/-- `CaboGame._handle_setup_timeout`: UNCONDITIONALLY clears the setup
timer, clears all card visibility, picks a random starting player and moves
to PLAYING — there is no staleness or phase guard in this handler. -/
def CaboGame.handle_setup_timeout (g : CaboGame) : HandlerResult × CaboGame :=
  let g :=
    match g.state.setup_timer_id with
    | some tid =>
        { g with pending_timeouts := timeoutsPop g.pending_timeouts tid,
                 state := { g.state with setup_timer_id := none } }
    | none => g
  let g := { g with state := { g.state with temporarily_viewed_cards := [] } }
  let (pick, g) := g.randPick g.players.length
  let g := { g with state := { g.state with current_player_index := pick,
                                            phase := GamePhase.playing } }
  (⟨true, [⟨"game_phase_changed",
            .gamePhaseChanged "playing" g.get_current_player.player_id none⟩], [], none⟩, g)

/-- `CaboGame._handle_turn_transition_timeout` (always succeeds). -/
def CaboGame.handle_turn_transition_timeout (g : CaboGame) : HandlerResult × CaboGame :=
  let g :=
    match g.state.turn_transition_timer_id with
    | some tid =>
        { g with pending_timeouts := timeoutsPop g.pending_timeouts tid,
                 state := { g.state with turn_transition_timer_id := none } }
    | none => g
  let g := { g with state := { g.state with temporarily_viewed_cards := [] } }
  (⟨true, [], [GameMessage.nextTurn], none⟩, g)

/-- `CaboGame._handle_message`: the dispatch table. -/
def CaboGame.handleMessage (g : CaboGame) : GameMessage → HandlerResult × CaboGame
  | .drawCard pid => g.handle_draw_card pid
  | .playDrawnCard pid => g.handle_play_drawn_card pid
  | .replaceAndPlay pid i => g.handle_replace_and_play pid i
  | .callStack pid => g.handle_call_stack pid
  | .executeStack pid i tgt => g.handle_execute_stack pid i tgt
  | .callCabo pid => g.handle_call_cabo pid
  | .viewOwnCard pid i => g.handle_view_own_card pid i
  | .viewOpponentCard pid tgt i => g.handle_view_opponent_card pid tgt i
  | .swapCards pid oi tgt ti => g.handle_swap_cards pid oi tgt ti
  | .kingViewCard pid tgt i => g.handle_king_view_card pid tgt i
  | .kingSwapCards pid oi tgt ti => g.handle_king_swap_cards pid oi tgt ti
  | .kingSkipSwap pid => g.handle_king_skip_swap pid
  | .stackTimeoutMsg => g.handle_stack_timeout
  | .specialActionTimeoutMsg => g.handle_special_action_timeout
  | .turnTransitionTimeoutMsg => g.handle_turn_transition_timeout
  | .setupTimeoutMsg => g.handle_setup_timeout
  | .nextTurn => g.handle_next_turn
  | .endGame => g.handle_end_game

/-- The Python `Suit` enumeration order. -/
def suitsInOrder : List Suit := [Suit.hearts, Suit.diamonds, Suit.clubs, Suit.spades]

/-- The Python `Rank` enumeration order (JOKER declared last). -/
def ranksInOrder : List Rank :=
  [Rank.ace, Rank.two, Rank.three, Rank.four, Rank.five, Rank.six, Rank.seven,
   Rank.eight, Rank.nine, Rank.ten, Rank.jack, Rank.queen, Rank.king, Rank.joker]

/-- `Deck._build_deck(include_jokers=True)`: 52 suited cards in enumeration
order followed by two jokers (54 cards before shuffling). -/
def standardDeck : List Card :=
  ((suitsInOrder.map (fun s =>
      (ranksInOrder.filter (fun r => r ≠ Rank.joker)).map (fun r => Card.mk r (some s)))).flatten)
    ++ [Card.mk Rank.joker none, Card.mk Rank.joker none]

/-- Give one player up to `n` cards off the top of the deck
(the inner loop of `_deal_initial_cards`; `if card:` skips an empty deck). -/
def dealOne (deck : List Card) (p : Player) : Nat → Player × List Card
  | 0 => (p, deck)
  | n + 1 =>
    match deckDraw deck with
    | (some c, deck') => dealOne deck' (p.add_card c) n
    | (none, deck') => dealOne deck' p n

/-- `CaboGame._deal_initial_cards`: 4 cards to each player in seat order. -/
def deal_initial_cards (players : List Player) (deck : List Card) :
    List Player × List Card :=
  players.foldl
    (fun acc p =>
      let (p', d') := dealOne acc.2 p 4
      (acc.1 ++ [p'], d'))
    ([], deck)

/-- `CaboGame.__init__`.  The uniformly shuffled deck is supplied as the
`deck0` argument (any permutation of `standardDeck` is a possible shuffle);
`rng` supplies later `random` draws and `now` is the creation time.  Initial
visibility: indices 0 and 1 of each player's own hand; a 10-second setup
timeout is armed. -/
def createGame (deck0 : List Card) (player_ids player_names : List String)
    (rng : List Nat) (now : Nat) : CaboGame :=
  let players0 := (player_ids.zip player_names).map
      (fun pr => Player.mk pr.1 pr.2 [] false)
  let (players, deck) := deal_initial_cards players0 deck0
  let vm : ViewedMap := players.foldl
      (fun (vm : ViewedMap) p =>
        (vm.add p.player_id (p.player_id, 0)).add p.player_id (p.player_id, 1))
      ([] : ViewedMap)
  let g : CaboGame :=
    { deck := deck
      discard_pile := []
      players := players
      state := { phase := GamePhase.setup, current_player_index := 0,
                 temporarily_viewed_cards := vm }
      message_queue := []
      pending_timeouts := []
      next_timer_id := 0
      now := now
      rng := rng }
  let (tid, g) := g.schedule_timeout 10
  { g with state := { g.state with setup_timer_id := some tid } }

/-- One expired timer id inside `_check_timeouts`: delete it from
`pending_timeouts`, and enqueue the matching timeout message only when the
id still equals the corresponding state field (which is then nilled).  An id
matching no field enqueues nothing. -/
def fireExpired (g : CaboGame) (tid : Nat) : CaboGame :=
  let g := { g with pending_timeouts := timeoutsPop g.pending_timeouts tid }
  if g.state.stack_timer_id = some tid then
    { g with message_queue := g.message_queue ++ [GameMessage.stackTimeoutMsg],
             state := { g.state with stack_timer_id := none } }
  else if g.state.special_action_timer_id = some tid then
    { g with message_queue := g.message_queue ++ [GameMessage.specialActionTimeoutMsg],
             state := { g.state with special_action_timer_id := none } }
  else if g.state.turn_transition_timer_id = some tid then
    { g with message_queue := g.message_queue ++ [GameMessage.turnTransitionTimeoutMsg],
             state := { g.state with turn_transition_timer_id := none } }
  else if g.state.setup_timer_id = some tid then
    { g with message_queue := g.message_queue ++ [GameMessage.setupTimeoutMsg],
             state := { g.state with setup_timer_id := none } }
  else g

/-- `CaboGame._check_timeouts`. -/
def check_timeouts (g : CaboGame) : CaboGame :=
  let expired := (g.pending_timeouts.filter (fun e => e.2 ≤ g.now)).map Prod.fst
  expired.foldl fireExpired g

/-- `CaboGame.add_message`. -/
def CaboGame.addMessage (g : CaboGame) (m : GameMessage) : CaboGame :=
  { g with message_queue := g.message_queue ++ [m] }

/-- One iteration of the drain loop in `process_messages`: pop the queue
head, run its handler, and if it succeeded broadcast its events and append
its follow-up messages to the queue.  Returns `none` on an empty queue. -/
def processOne (g : CaboGame) : Option (List GameEvent × CaboGame) :=
  match g.message_queue with
  | [] => none
  | m :: rest =>
    let (r, g') := CaboGame.handleMessage { g with message_queue := rest } m
    if r.success then
      some (r.events, { g' with message_queue := g'.message_queue ++ r.next_messages })
    else
      some ([], g')

/-- Iterate `processOne` a given number of times. -/
def runSteps (g : CaboGame) : Nat → CaboGame
  | 0 => g
  | n + 1 =>
    match processOne g with
    | some (_, g') => runSteps g' n
    | none => g

/-- The game states reachable in operation: creation from some uniform
shuffle of the standard deck, followed by any interleaving of externally
injected player intents (`GameOrchestrator._deserialize_message` produces
only those), the passage of time, timer expiry checks, and queue
processing. -/
inductive Reachable : CaboGame → Prop where
  | init (deck : List Card) (ids names : List String) (rng : List Nat) (now : Nat) :
      deck.Perm standardDeck → Reachable (createGame deck ids names rng now)
  | intent (g : CaboGame) (m : GameMessage) : Reachable g → m.isPlayerIntent = true →
      Reachable (g.addMessage m)
  | tick (g : CaboGame) (dt : Nat) : Reachable g → Reachable { g with now := g.now + dt }
  | timeouts (g : CaboGame) : Reachable g → Reachable (check_timeouts g)
  | process (g : CaboGame) (evs : List GameEvent) (g' : CaboGame) :
      Reachable g → processOne g = some (evs, g') → Reachable g'

/-- Total number of cards accounted for by a game:
hands + discard pile + the drawn card (0/1) + deck. -/
def cardCount (g : CaboGame) : Nat :=
  (g.players.map (fun p => p.hand.length)).sum + g.discard_pile.length +
    (if g.state.drawn_card.isSome then 1 else 0) + g.deck.length

example : standardDeck.length = 54 := by decide

/-! ## Concrete executions shared by several claims

`gNew` is a freshly created two-player game whose shuffle happened to leave
the deck in build order; `gPlaying` is that game after its setup timeout
fired (the rng stream starts with 0, so seat 0 starts). -/

def gNew : CaboGame := createGame standardDeck ["p0", "p1"] ["Alice", "Bob"] [0, 1] 0

def gTicked : CaboGame := { gNew with now := gNew.now + 10 }

def gChecked : CaboGame := check_timeouts gTicked

def gPlaying : CaboGame := runSteps gChecked 1

/-- Any number of processing steps keeps a game reachable. -/
theorem reachable_runSteps (n : Nat) (g : CaboGame) (hg : Reachable g) :
    Reachable (runSteps g n) := by
  induction n generalizing g with
  | zero => exact hg
  | succ n ih =>
    unfold runSteps
    cases h : processOne g with
    | none => exact hg
    | some pr =>
      exact ih pr.2 (Reachable.process g pr.1 pr.2 hg (by rw [h]))

theorem gPlaying_reachable : Reachable gPlaying :=
  reachable_runSteps 1 gChecked
    (Reachable.timeouts gTicked
      (Reachable.tick gNew 10
        (Reachable.init standardDeck ["p0", "p1"] ["Alice", "Bob"] [0, 1] 0
          (List.Perm.refl _))))

/-! ## C9: scoring table and specialness -/

/-- The per-card scoring value exactly as the spec words it:
"JOKER=0; red K (hearts/diamonds) = −1; other K = 13; A=1; 2–10 face value;
J=11; Q=12". -/
def specCardValue : Card → Int
  | ⟨Rank.joker, _⟩ => 0
  | ⟨Rank.king, some Suit.hearts⟩ => -1
  | ⟨Rank.king, some Suit.diamonds⟩ => -1
  | ⟨Rank.king, _⟩ => 13
  | ⟨Rank.ace, _⟩ => 1
  | ⟨Rank.two, _⟩ => 2
  | ⟨Rank.three, _⟩ => 3
  | ⟨Rank.four, _⟩ => 4
  | ⟨Rank.five, _⟩ => 5
  | ⟨Rank.six, _⟩ => 6
  | ⟨Rank.seven, _⟩ => 7
  | ⟨Rank.eight, _⟩ => 8
  | ⟨Rank.nine, _⟩ => 9
  | ⟨Rank.ten, _⟩ => 10
  | ⟨Rank.jack, _⟩ => 11
  | ⟨Rank.queen, _⟩ => 12

theorem card_value_eq_spec (c : Card) : c.value = specCardValue c := by
  obtain ⟨r, s⟩ := c
  cases r <;> rcases s with _ | s <;> first
    | rfl
    | (cases s <;> rfl)

/-- C9: for every hand, the score is the sum of the spec's per-card values
(JOKER=0, red King −1, other King 13, Ace 1, 2–10 face value, J=11, Q=12),
and a card is special exactly when its rank lies in {7,8,9,10,J,Q,K}. -/
theorem score_and_specialness (p : Player) (c : Card) :
    p.get_score = (p.hand.map specCardValue).sum ∧
    (c.is_special = true ↔
      c.rank ∈ [Rank.seven, Rank.eight, Rank.nine, Rank.ten, Rank.jack, Rank.queen, Rank.king]) := by
  constructor
  · unfold Player.get_score
    have : Card.value = specCardValue := funext card_value_eq_spec
    rw [this]
  · obtain ⟨r, s⟩ := c
    cases r <;> simp [Card.is_special, Rank.val]

/-! ## C10: phases in which CALL_CABO is accepted -/

/-- C10: CALL_CABO by the current player is accepted in PLAYING and in
WAITING_FOR_SPECIAL_ACTION (with no drawn card and no prior Cabo call), and
in every other phase it is rejected as a no-op that emits nothing. -/
theorem call_cabo_phases (g : CaboGame) (pid : String) :
    ((g.state.phase = GamePhase.playing ∨
      g.state.phase = GamePhase.waitingForSpecialAction) →
      g.get_current_player.player_id = pid →
      g.state.drawn_card = none →
      g.state.cabo_caller = none →
      (g.handleMessage (.callCabo pid)).1.success = true) ∧
    (g.state.phase ≠ GamePhase.playing →
     g.state.phase ≠ GamePhase.waitingForSpecialAction →
      (g.handleMessage (.callCabo pid)).1.success = false ∧
      (g.handleMessage (.callCabo pid)).2 = g ∧
      (g.handleMessage (.callCabo pid)).1.events = []) := by
  constructor
  · intro hphase hcp hdrawn hcabo
    simp only [CaboGame.handleMessage, CaboGame.handle_call_cabo, CaboGame.is_cabo_called,
      hcp, hdrawn, hcabo, rejected]
    simp [hphase]
  · intro h1 h2
    simp only [CaboGame.handleMessage, CaboGame.handle_call_cabo, rejected]
    simp [h1, h2]

/-- Witness for C10 at a concrete input: in `gPlaying` the current player
`p0` may call Cabo, and the same message is rejected unchanged in the SETUP
phase of `gNew`. -/
theorem call_cabo_phases_witness :
    (gPlaying.handleMessage (.callCabo "p0")).1.success = true ∧
    (gNew.handleMessage (.callCabo "p0")).2 = gNew := by
  constructor
  · exact (call_cabo_phases gPlaying "p0").1 (Or.inl (by decide)) (by decide) (by decide)
      (by decide)
  · exact ((call_cabo_phases gNew "p0").2 (by decide) (by decide)).2.1

/-! ## C1: REPLACE_AND_PLAY never updates the visibility map -/

/-- `gPlaying` after the current player `p0` drew a card (the seven of
spades, the next card off the unshuffled deck). -/
def gDrawn : CaboGame := runSteps (gPlaying.addMessage (.drawCard "p0")) 1

/-- C1 (evaluation at the failing input): in `gDrawn` the current player
`p0` holds a drawn 7♠ and sends REPLACE_AND_PLAY(0).  The drawn card does
take hand slot 0 and the displaced joker becomes the played card and the
discard top — but `(p0, 0)` is NOT added to `p0`'s visibility set: the
handler never touches `temporarily_viewed_cards`, contradicting the claim's
last conjunct. -/
theorem replace_and_play_keeps_visibility_empty :
    (gDrawn.handleMessage (.replaceAndPlay "p0" 0)).1.success = true ∧
    gDrawn.state.drawn_card = some (Card.mk Rank.seven (some Suit.spades)) ∧
    ((gDrawn.handleMessage (.replaceAndPlay "p0" 0)).2.players.getD 0 default).hand.getD 0 default
      = Card.mk Rank.seven (some Suit.spades) ∧
    (gDrawn.handleMessage (.replaceAndPlay "p0" 0)).2.state.played_card
      = some (Card.mk Rank.joker none) ∧
    (gDrawn.handleMessage (.replaceAndPlay "p0" 0)).2.discard_pile.getLast?
      = some (Card.mk Rank.joker none) ∧
    ((gDrawn.handleMessage (.replaceAndPlay "p0" 0)).2.state.temporarily_viewed_cards.get "p0")
      = [] := by
  decide

/-! ## C3: the card-conservation invariant is violated -/

/-- `gPlaying` after the current player queued CALL_CABO and DRAW_CARD in
the same batch and two messages were processed: the Cabo call succeeded
(enqueueing NEXT_TURN behind the draw) and the draw succeeded, so a drawn
card is live while NEXT_TURN is still pending. -/
def gCaboDrawMid : CaboGame :=
  runSteps ((gPlaying.addMessage (.callCabo "p0")).addMessage (.drawCard "p0")) 2

/-- The same batch fully drained: the pending NEXT_TURN has nilled
`drawn_card` without returning the card anywhere. -/
def gCaboDrawEnd : CaboGame :=
  runSteps ((gPlaying.addMessage (.callCabo "p0")).addMessage (.drawCard "p0")) 3

/-- C3 (evaluation at the failing input): a fresh game accounts for 54
cards, and queueing CALL_CABO followed by DRAW_CARD in one batch ends with
only 53 — the drawn card vanishes when the enqueued NEXT_TURN clears
`drawn_card`. -/
theorem cabo_draw_interleave_loses_card :
    cardCount gNew = 54 ∧
    cardCount gPlaying = 54 ∧
    gCaboDrawMid.state.drawn_card.isSome = true ∧
    gCaboDrawMid.message_queue = [GameMessage.nextTurn] ∧
    gCaboDrawEnd.message_queue = [] ∧
    gCaboDrawEnd.state.drawn_card = none ∧
    cardCount gCaboDrawEnd = 53 := by
  decide

/-! ## C2: rejected messages and the execute-stack exception -/

/-- A reachable stack situation built on the unshuffled deck: `p0` drew the
7♠, replaced it into slot 0 (playing the displaced joker), and called STACK
from TURN_TRANSITION; `p0` still holds a second joker at slot 1. -/
def gStacked : CaboGame :=
  runSteps
    (((gPlaying.addMessage (.drawCard "p0")).addMessage
        (.replaceAndPlay "p0" 0)).addMessage (.callStack "p0")) 3

theorem gStacked_reachable : Reachable gStacked :=
  reachable_runSteps 3 _
    (Reachable.intent _ _
      (Reachable.intent _ _
        (Reachable.intent _ _ gPlaying_reachable rfl) rfl) rfl)

/-- C2 counterexample: in the reachable state `gStacked` the stack caller
sends EXECUTE_STACK with a matching-rank card (the second joker) but a
`target_player_id` naming no player.  The handler rejects the message and
emits no events — yet the state HAS changed: `_clear_stack_state()` already
ran, so the phase moved from STACK_CALLED to PLAYING and the stack caller
was wiped.  Rejection is not a no-op here. -/
theorem execute_stack_rejection_mutates :
    Reachable gStacked ∧
    (gStacked.handleMessage (.executeStack "p0" 1 (some "ghost"))).1.success = false ∧
    (gStacked.handleMessage (.executeStack "p0" 1 (some "ghost"))).1.events = [] ∧
    gStacked.state.phase = GamePhase.stackCalled ∧
    gStacked.state.stack_caller = some "p0" ∧
    (gStacked.handleMessage (.executeStack "p0" 1 (some "ghost"))).2.state.phase
      = GamePhase.playing ∧
    (gStacked.handleMessage (.executeStack "p0" 1 (some "ghost"))).2.state.stack_caller
      = none ∧
    (gStacked.handleMessage (.executeStack "p0" 1 (some "ghost"))).2 ≠ gStacked :=
  ⟨gStacked_reachable, by decide, by decide, by decide, by decide, by decide, by decide,
    by decide⟩

/-- C2 amended: every rejected message emits no events and enqueues no
follow-ups, and leaves the game unchanged — with the single exception of
EXECUTE_STACK whose matching-rank stack card targets an unknown player id,
which leaves the game equal to `clear_stack_state` of the input (stack
caller wiped, stack timer dropped, phase back to PLAYING). -/
theorem rejected_messages_noop (g : CaboGame) (m : GameMessage) (r : HandlerResult)
    (g' : CaboGame) (h : g.handleMessage m = (r, g')) (hfail : r.success = false) :
    r.events = [] ∧ r.next_messages = [] ∧
    (g' = g ∨
      ∃ pid ci tgt, m = GameMessage.executeStack pid ci (some tgt) ∧
        g' = g.clear_stack_state ∧
        g.clear_stack_state.get_player_by_id tgt = none) := by
  cases m <;>
    simp only [CaboGame.handleMessage, CaboGame.handle_draw_card,
      CaboGame.handle_play_drawn_card, CaboGame.handle_replace_and_play,
      CaboGame.handle_call_stack, CaboGame.handle_execute_stack, CaboGame.handle_call_cabo,
      CaboGame.handle_view_own_card, CaboGame.handle_view_opponent_card,
      CaboGame.handle_swap_cards, CaboGame.handle_king_view_card,
      CaboGame.handle_king_swap_cards, CaboGame.handle_king_skip_swap,
      CaboGame.handle_stack_timeout, CaboGame.handle_special_action_timeout,
      CaboGame.handle_turn_transition_timeout, CaboGame.handle_setup_timeout,
      CaboGame.handle_next_turn, CaboGame.handle_end_game, CaboGame.advanceTurn,
      CaboGame.afterPlay, rejected] at h <;>
    (repeat' split at h) <;>
    (try (injection h with h1 h2; subst h1; subst h2)) <;>
    simp_all <;>
    (try exact Or.inr ⟨_, _, _, ⟨rfl, rfl, rfl⟩, by assumption⟩)

/-- Witness for the amended C2 theorem at a concrete input: DRAW_CARD during
SETUP is rejected and leaves `gNew` untouched. -/
theorem rejected_messages_noop_witness :
    (gNew.handleMessage (.drawCard "p0")).1.events = [] ∧
    (gNew.handleMessage (.drawCard "p0")).1.next_messages = [] ∧
    ((gNew.handleMessage (.drawCard "p0")).2 = gNew ∨
      ∃ pid ci tgt, GameMessage.drawCard "p0" = GameMessage.executeStack pid ci (some tgt) ∧
        (gNew.handleMessage (.drawCard "p0")).2 = gNew.clear_stack_state ∧
        gNew.clear_stack_state.get_player_by_id tgt = none) :=
  rejected_messages_noop gNew (.drawCard "p0") _ _ (by decide) (by decide)

/-! ## C6: stale SETUP_TIMEOUT -/

/-- C6 counterexample: `gPlaying` has advanced past SETUP (phase PLAYING,
stale/nil setup timer id, current player 0), yet processing a SETUP_TIMEOUT
message is NOT ignored — the handler succeeds and moves the current player
index to 1 (and re-clears all visibility, and re-enters PLAYING),
contradicting "changes neither the phase, nor the current player index, nor
any player's visibility set". -/
theorem setup_timeout_not_ignored :
    gPlaying.state.phase = GamePhase.playing ∧
    gPlaying.state.setup_timer_id = none ∧
    gPlaying.state.current_player_index = 0 ∧
    (gPlaying.handleMessage .setupTimeoutMsg).1.success = true ∧
    (gPlaying.handleMessage .setupTimeoutMsg).2.state.current_player_index = 1 := by
  decide

theorem fireExpired_setup_count (g : CaboGame) (t : Nat)
    (h : g.state.setup_timer_id = none) :
    (fireExpired g t).state.setup_timer_id = none ∧
    (fireExpired g t).message_queue.count GameMessage.setupTimeoutMsg
      = g.message_queue.count GameMessage.setupTimeoutMsg := by
  simp only [fireExpired]
  split_ifs with h1 h2 h3 h4 <;>
    simp_all [List.count_append]

theorem foldl_fireExpired_setup (l : List Nat) (g : CaboGame)
    (h : g.state.setup_timer_id = none) :
    (l.foldl fireExpired g).state.setup_timer_id = none ∧
    (l.foldl fireExpired g).message_queue.count GameMessage.setupTimeoutMsg
      = g.message_queue.count GameMessage.setupTimeoutMsg := by
  induction l generalizing g with
  | nil => exact ⟨h, rfl⟩
  | cons t l ih =>
    have hf := fireExpired_setup_count g t h
    have := ih (fireExpired g t) hf.1
    exact ⟨this.1, this.2.trans hf.2⟩

/-- C6 amended: the staleness protection lives in timeout delivery, not in
the handler.  (1) When the stored setup timer id is already nil,
`_check_timeouts` enqueues no SETUP_TIMEOUT, so an advanced game never
receives one from the timer machinery.  (2) The handler itself is
unguarded: processing a SETUP_TIMEOUT always succeeds, clears every
player's visibility set, re-randomizes the current player and (re)enters
PLAYING. -/
theorem setup_timeout_guard (g : CaboGame) :
    (g.state.setup_timer_id = none →
      (check_timeouts g).message_queue.count GameMessage.setupTimeoutMsg
        = g.message_queue.count GameMessage.setupTimeoutMsg) ∧
    ((g.handleMessage .setupTimeoutMsg).1.success = true ∧
     (g.handleMessage .setupTimeoutMsg).2.state.phase = GamePhase.playing ∧
     (g.handleMessage .setupTimeoutMsg).2.state.temporarily_viewed_cards = [] ∧
     (g.handleMessage .setupTimeoutMsg).2.state.current_player_index
        = (g.rng.headD 0) % g.players.length ∧
     (g.handleMessage .setupTimeoutMsg).2.state.setup_timer_id = none) := by
  constructor
  · intro h
    exact (foldl_fireExpired_setup _ g h).2
  · simp only [CaboGame.handleMessage, CaboGame.handle_setup_timeout, CaboGame.randPick]
    split <;> simp_all

/-- Witness for the amended C6 theorem at the concrete game `gPlaying`
(whose setup timer id is nil). -/
theorem setup_timeout_guard_witness :
    (check_timeouts gPlaying).message_queue.count GameMessage.setupTimeoutMsg
      = gPlaying.message_queue.count GameMessage.setupTimeoutMsg ∧
    (gPlaying.handleMessage .setupTimeoutMsg).1.success = true :=
  ⟨(setup_timeout_guard gPlaying).1 (by decide), (setup_timeout_guard gPlaying).2.1⟩

/-! ## C4: Cabo endgame, score ordering and tie-breaking

Python's `scores.sort(key=lambda x: x[2])` is a stable ascending sort,
modelled by `sortScores`.  The spec's wording — "orders players by
ascending score, ties broken by seat order, lowest index first" — is
transcribed as `specEndOrder`: sort the seat-indexed rows by the
lexicographic key (score, seat index).  The two agree. -/

/-- Insertion step of the spec-side lexicographic (score, seat) sort. -/
def insIdx (x : Nat × ScoreRow) : List (Nat × ScoreRow) → List (Nat × ScoreRow)
  | [] => [x]
  | y :: ys =>
    if x.2.score < y.2.score ∨ (x.2.score = y.2.score ∧ x.1 ≤ y.1) then x :: y :: ys
    else y :: insIdx x ys

/-- Spec-side sort of seat-indexed rows by (score, seat index). -/
def lexSort : List (Nat × ScoreRow) → List (Nat × ScoreRow)
  | [] => []
  | x :: xs => insIdx x (lexSort xs)

/-- Modelled from the spec's words: the endgame table "ordered by ascending
score, ties broken by seat order, lowest index first". -/
def specEndOrder (rows : List ScoreRow) : List ScoreRow :=
  (lexSort rows.enum).map Prod.snd

theorem insIdx_cons (x y : Nat × ScoreRow) (ys : List (Nat × ScoreRow)) :
    insIdx x (y :: ys) =
      if x.2.score < y.2.score ∨ (x.2.score = y.2.score ∧ x.1 ≤ y.1) then x :: y :: ys
      else y :: insIdx x ys := rfl

theorem insRow_cons (x y : ScoreRow) (ys : List ScoreRow) :
    insRow x (y :: ys) = if x.score ≤ y.score then x :: y :: ys else y :: insRow x ys := rfl

theorem mem_insIdx {p x : Nat × ScoreRow} :
    ∀ {l : List (Nat × ScoreRow)}, p ∈ insIdx x l → p = x ∨ p ∈ l := by
  intro l
  induction l with
  | nil => intro h; simpa [insIdx] using h
  | cons y ys ih =>
    intro h
    rw [insIdx_cons] at h
    split at h
    · rcases List.mem_cons.mp h with h1 | h1
      · exact Or.inl h1
      · exact Or.inr h1
    · rcases List.mem_cons.mp h with h1 | h1
      · exact Or.inr (List.mem_cons.mpr (Or.inl h1))
      · rcases ih h1 with h2 | h2
        · exact Or.inl h2
        · exact Or.inr (List.mem_cons.mpr (Or.inr h2))

theorem mem_lexSort {p : Nat × ScoreRow} :
    ∀ {l : List (Nat × ScoreRow)}, p ∈ lexSort l → p ∈ l := by
  intro l
  induction l with
  | nil => intro h; simpa [lexSort] using h
  | cons x xs ih =>
    intro h
    rw [lexSort] at h
    rcases mem_insIdx h with h' | h'
    · simp [h']
    · simp [ih h']

theorem fst_ge_of_mem_enumFrom {p : Nat × ScoreRow} :
    ∀ {k : Nat} {l : List ScoreRow}, p ∈ List.enumFrom k l → k ≤ p.1 := by
  intro k l
  induction l generalizing k with
  | nil => intro h; simp [List.enumFrom] at h
  | cons x xs ih =>
    intro h
    rw [List.enumFrom] at h
    rcases List.mem_cons.mp h with h | h
    · simp [h]
    · exact Nat.le_of_succ_le (ih h)

theorem insIdx_map_snd (xr : ScoreRow) (n : Nat) :
    ∀ (l : List (Nat × ScoreRow)), (∀ p ∈ l, n < p.1) →
      (insIdx (n, xr) l).map Prod.snd = insRow xr (l.map Prod.snd) := by
  intro l
  induction l with
  | nil => intro _; rfl
  | cons y ys ih =>
    intro hl
    have hy : n < y.1 := hl y (by simp)
    have hcond : (xr.score < y.2.score ∨ (xr.score = y.2.score ∧ n ≤ y.1)) ↔
        xr.score ≤ y.2.score := by
      constructor
      · rintro (h | ⟨h, _⟩)
        · exact le_of_lt h
        · exact le_of_eq h
      · intro h
        rcases lt_or_eq_of_le h with h' | h'
        · exact Or.inl h'
        · exact Or.inr ⟨h', Nat.le_of_lt hy⟩
    rw [insIdx_cons, List.map_cons, insRow_cons]
    by_cases hle : xr.score ≤ y.2.score
    · rw [if_pos (hcond.mpr hle), if_pos hle]
      simp
    · rw [if_neg (fun hc => hle (hcond.mp hc)), if_neg hle, List.map_cons,
        ih (fun p hp => hl p (List.mem_cons.mpr (Or.inr hp)))]

theorem lexSort_enumFrom_eq_sortScores (rows : List ScoreRow) :
    ∀ (n : Nat), (lexSort (List.enumFrom n rows)).map Prod.snd = sortScores rows := by
  induction rows with
  | nil => intro n; rfl
  | cons x xs ih =>
    intro n
    have hbound : ∀ p ∈ lexSort (List.enumFrom (n + 1) xs), n < p.1 := by
      intro p hp
      exact Nat.lt_of_succ_le (fst_ge_of_mem_enumFrom (mem_lexSort hp))
    calc (lexSort (List.enumFrom n (x :: xs))).map Prod.snd
        = (insIdx (n, x) (lexSort (List.enumFrom (n + 1) xs))).map Prod.snd := rfl
      _ = insRow x ((lexSort (List.enumFrom (n + 1) xs)).map Prod.snd) :=
          insIdx_map_snd x n _ hbound
      _ = insRow x (sortScores xs) := by rw [ih (n + 1)]
      _ = sortScores (x :: xs) := rfl

theorem sortScores_eq_specEndOrder (rows : List ScoreRow) :
    sortScores rows = specEndOrder rows :=
  (lexSort_enumFrom_eq_sortScores rows 0).symm

/-- C4: once Cabo has been called, a NEXT_TURN whose seat advance would land
on the caller enqueues END_GAME and changes nothing else; and END_GAME sets
the phase to ENDED, emits a `game_ended` event whose score table is exactly
the seat-indexed rows in ascending-score order with ties broken by the
lowest seat index (`specEndOrder`), and sets the winner to the first player
of that table. -/
theorem cabo_endgame (g : CaboGame) :
    (∀ cc k, g.state.cabo_caller = some cc →
      g.players.findIdx? (fun p => p.player_id = cc) = some k →
      (g.state.current_player_index + 1) % g.players.length = k →
      g.handleMessage .nextTurn = (⟨true, [], [GameMessage.endGame], none⟩, g)) ∧
    ((g.handleMessage .endGame).1.success = true ∧
     (g.handleMessage .endGame).2.state.phase = GamePhase.ended ∧
     (g.handleMessage .endGame).2.state.winner =
       some ((specEndOrder (g.players.map
         (fun q => ScoreRow.mk q.player_id q.name q.get_score))).headD default).player_id ∧
     (g.handleMessage .endGame).1.events =
       [⟨"game_ended",
         .gameEnded
           ((specEndOrder (g.players.map
              (fun q => ScoreRow.mk q.player_id q.name q.get_score))).headD default).player_id
           ((specEndOrder (g.players.map
              (fun q => ScoreRow.mk q.player_id q.name q.get_score))).headD default).name
           (specEndOrder (g.players.map
              (fun q => ScoreRow.mk q.player_id q.name q.get_score)))⟩]) := by
  constructor
  · intro cc k hcc hidx hnext
    simp [CaboGame.handleMessage, CaboGame.handle_next_turn, hcc, hidx, hnext]
  · simp [CaboGame.handleMessage, CaboGame.handle_end_game, sortScores_eq_specEndOrder]

/-- Witness for C4 at a concrete input: in `gCaboDrawEnd` Cabo was called by
`p0`, the current player is seat 1 of 2, so the next advance would land on
the caller: NEXT_TURN turns into END_GAME, and END_GAME ends the game. -/
theorem cabo_endgame_witness :
    gCaboDrawEnd.handleMessage .nextTurn
      = (⟨true, [], [GameMessage.endGame], none⟩, gCaboDrawEnd) ∧
    (gCaboDrawEnd.handleMessage .endGame).1.success = true ∧
    (gCaboDrawEnd.handleMessage .endGame).2.state.phase = GamePhase.ended :=
  ⟨(cabo_endgame gCaboDrawEnd).1 "p0" 0 (by decide) (by decide) (by decide),
   (cabo_endgame gCaboDrawEnd).2.1, (cabo_endgame gCaboDrawEnd).2.2.1⟩

/-! ## C5: the stack-calling protocol

Two facts about reachable states are needed: in STACK_CALLED a stack caller
is always recorded, and the turn-transition timer id (when set) is older
than the next fresh timer id.  Both are proved by induction over
`Reachable`. -/

/-- In phase STACK_CALLED a stack caller is recorded. -/
def stackInv (g : CaboGame) : Prop :=
  g.state.phase = GamePhase.stackCalled → g.state.stack_caller ≠ none

/-- The stored turn-transition timer id predates the fresh-id counter. -/
def ttFresh (g : CaboGame) : Prop :=
  ∀ t, g.state.turn_transition_timer_id = some t → t < g.next_timer_id

/-- The conjunction carried through the reachability induction. -/
def EngineInv (g : CaboGame) : Prop := stackInv g ∧ ttFresh g

theorem updatePlayer_state (g : CaboGame) (pid : String) (f : Player → Player) :
    (g.updatePlayer pid f).state = g.state := rfl

theorem updatePlayer_next (g : CaboGame) (pid : String) (f : Player → Player) :
    (g.updatePlayer pid f).next_timer_id = g.next_timer_id := rfl

theorem clear_stack_state_fields (g : CaboGame) :
    g.clear_stack_state.state.phase = GamePhase.playing ∧
    g.clear_stack_state.state.turn_transition_timer_id
      = g.state.turn_transition_timer_id ∧
    g.clear_stack_state.next_timer_id = g.next_timer_id := by
  unfold CaboGame.clear_stack_state
  split <;> exact ⟨rfl, rfl, rfl⟩

theorem clear_special_fields (g : CaboGame) :
    g.clear_special_action_state.state.phase = g.state.phase ∧
    g.clear_special_action_state.state.stack_caller = g.state.stack_caller ∧
    g.clear_special_action_state.state.turn_transition_timer_id
      = g.state.turn_transition_timer_id ∧
    g.clear_special_action_state.next_timer_id = g.next_timer_id := by
  unfold CaboGame.clear_special_action_state
  split <;> exact ⟨rfl, rfl, rfl, rfl⟩

theorem clear_king_fields (g : CaboGame) :
    g.clear_king_state.state.phase = g.state.phase ∧
    g.clear_king_state.state.stack_caller = g.state.stack_caller ∧
    g.clear_king_state.state.turn_transition_timer_id
      = g.state.turn_transition_timer_id ∧
    g.clear_king_state.next_timer_id = g.next_timer_id :=
  ⟨rfl, rfl, rfl, rfl⟩

theorem engineInv_transition (g : CaboGame) (ht : ttFresh g) :
    EngineInv g.transition_after_special_action := by
  unfold CaboGame.transition_after_special_action CaboGame.schedule_timeout
  split_ifs with h
  · refine ⟨fun _ => h, ?_⟩
    intro t hteq
    exact Nat.lt_succ_of_lt (ht t hteq)
  · dsimp only
    refine ⟨fun hp => by simp at hp, ?_⟩
    intro t hteq
    dsimp only at hteq ⊢
    simp only [Option.some.injEq] at hteq
    omega

theorem clear_special_tt (g : CaboGame) :
    g.clear_special_action_state.state.turn_transition_timer_id
      = g.state.turn_transition_timer_id := (clear_special_fields g).2.2.1

theorem clear_special_next (g : CaboGame) :
    g.clear_special_action_state.next_timer_id = g.next_timer_id := (clear_special_fields g).2.2.2

theorem clear_king_tt (g : CaboGame) :
    g.clear_king_state.state.turn_transition_timer_id = g.state.turn_transition_timer_id := rfl

theorem clear_king_next (g : CaboGame) :
    g.clear_king_state.next_timer_id = g.next_timer_id := rfl

theorem clear_stack_tt (g : CaboGame) :
    g.clear_stack_state.state.turn_transition_timer_id
      = g.state.turn_transition_timer_id := (clear_stack_state_fields g).2.1

theorem clear_stack_next (g : CaboGame) :
    g.clear_stack_state.next_timer_id = g.next_timer_id := (clear_stack_state_fields g).2.2

theorem clear_stack_phase (g : CaboGame) :
    g.clear_stack_state.state.phase = GamePhase.playing := (clear_stack_state_fields g).1

theorem handleMessage_EngineInv (g : CaboGame) (m : GameMessage) (r : HandlerResult)
    (g' : CaboGame) (h : g.handleMessage m = (r, g')) (hinv : EngineInv g) : EngineInv g' := by
  obtain ⟨hstack, htt⟩ := hinv
  cases m <;>
    simp only [CaboGame.handleMessage, CaboGame.handle_draw_card,
      CaboGame.handle_play_drawn_card, CaboGame.handle_replace_and_play,
      CaboGame.handle_call_stack, CaboGame.handle_execute_stack, CaboGame.handle_call_cabo,
      CaboGame.handle_view_own_card, CaboGame.handle_view_opponent_card,
      CaboGame.handle_swap_cards, CaboGame.handle_king_view_card,
      CaboGame.handle_king_swap_cards, CaboGame.handle_king_skip_swap,
      CaboGame.handle_stack_timeout, CaboGame.handle_special_action_timeout,
      CaboGame.handle_turn_transition_timeout, CaboGame.handle_setup_timeout,
      CaboGame.handle_next_turn, CaboGame.handle_end_game, CaboGame.advanceTurn,
      CaboGame.afterPlay, CaboGame.schedule_timeout, CaboGame.randPick, rejected] at h <;>
    (repeat' split at h) <;>
    (try (injection h with h1 h2; subst h1; subst h2)) <;>
    (first
      | exact ⟨hstack, htt⟩
      | (refine engineInv_transition _ ?_;
         intro t ht;
         simp only [clear_special_tt, clear_special_next, clear_king_tt, clear_king_next,
           updatePlayer_state, updatePlayer_next] at ht ⊢;
         exact htt t ht)
      | (refine ⟨fun hp => ?_, fun t ht => ?_⟩
         · first
             | exact hstack hp
             | (simp_all [clear_stack_phase, updatePlayer_state]; done)
         · first
             | exact htt t ht
             | exact Nat.lt_succ_of_lt (htt t ht)
             | (simp only [Option.some.injEq] at ht; subst ht; exact Nat.lt_succ_self _)
             | (simp at ht; done)
             | (simp only [clear_stack_tt, clear_stack_next, updatePlayer_state,
                  updatePlayer_next] at ht ⊢;
                exact htt t ht)))

theorem fireExpired_EngineInv (g : CaboGame) (t : Nat) (h : EngineInv g) :
    EngineInv (fireExpired g t) := by
  obtain ⟨hs, ht⟩ := h
  simp only [fireExpired]
  split_ifs <;>
    first
      | exact ⟨fun hp => hs hp, fun t' ht' => ht t' ht'⟩
      | exact ⟨fun hp => hs hp, fun t' ht' => by simp at ht'⟩

theorem check_timeouts_EngineInv (g : CaboGame) (h : EngineInv g) :
    EngineInv (check_timeouts g) := by
  unfold check_timeouts
  generalize ((g.pending_timeouts.filter (fun e => e.2 ≤ g.now)).map Prod.fst) = l
  induction l generalizing g with
  | nil => exact h
  | cons t l ih => exact ih (fireExpired g t) (fireExpired_EngineInv g t h)

theorem createGame_fields (deck0 : List Card) (ids names : List String) (rng : List Nat)
    (now : Nat) :
    (createGame deck0 ids names rng now).state.phase = GamePhase.setup ∧
    (createGame deck0 ids names rng now).state.turn_transition_timer_id = none := ⟨rfl, rfl⟩

/-- Every reachable game satisfies the two carried invariants. -/
theorem reachable_EngineInv (g : CaboGame) (hg : Reachable g) : EngineInv g := by
  induction hg with
  | init deck ids names rng now _ =>
    refine ⟨fun hp => ?_, fun t ht => ?_⟩
    · rw [(createGame_fields deck ids names rng now).1] at hp
      cases hp
    · rw [(createGame_fields deck ids names rng now).2] at ht
      cases ht
  | intent g m _ _ ih => exact ⟨fun hp => ih.1 hp, fun t ht => ih.2 t ht⟩
  | tick g dt _ ih => exact ⟨fun hp => ih.1 hp, fun t ht => ih.2 t ht⟩
  | timeouts g _ ih => exact check_timeouts_EngineInv g ih
  | process g evs g' _ hp ih =>
    unfold processOne at hp
    cases hq : g.message_queue with
    | nil => rw [hq] at hp; cases hp
    | cons m rest =>
      rw [hq] at hp
      dsimp only at hp
      have hinv' : EngineInv { g with message_queue := rest } :=
        ⟨fun hpp => ih.1 hpp, fun t ht => ih.2 t ht⟩
      have hmain := handleMessage_EngineInv { g with message_queue := rest } m
        (CaboGame.handleMessage { g with message_queue := rest } m).1
        (CaboGame.handleMessage { g with message_queue := rest } m).2 rfl hinv'
      by_cases hs : (CaboGame.handleMessage { g with message_queue := rest } m).1.success
      · rw [if_pos hs] at hp
        cases hp
        exact ⟨fun hpp => hmain.1 hpp, fun t ht => hmain.2 t ht⟩
      · rw [if_neg hs] at hp
        cases hp
        exact hmain

theorem mem_timeoutsPop_ne {e : Nat × Nat} {l : List (Nat × Nat)} {t : Nat}
    (he : e ∈ timeoutsPop l t) : e.1 ≠ t := by
  simp only [timeoutsPop, List.mem_filter, decide_eq_true_eq] at he
  exact he.2

theorem mem_timeoutsPop_of {e : Nat × Nat} {l : List (Nat × Nat)} {t : Nat}
    (he : e ∈ l) (hne : e.1 ≠ t) : e ∈ timeoutsPop l t := by
  simp only [timeoutsPop, List.mem_filter, decide_eq_true_eq]
  exact ⟨he, hne⟩

/-- C5: in any reachable state with a played card and no recorded caller,
CALL_STACK by a player of the game succeeds and records that player; while a
caller is recorded every CALL_STACK is rejected without changing the game;
a successful call from PLAYING or TURN_TRANSITION enters STACK_CALLED, drops
the pending turn-transition timeout and arms a fresh timeout expiring 30
seconds from now that `stack_timer_id` points at; a successful call from
WAITING_FOR_SPECIAL_ACTION or either KING phase records the caller and
changes nothing else (phase included). -/
theorem call_stack_protocol (g : CaboGame) (hg : Reachable g) (pc : Card) (pid : String)
    (player : Player)
    (hplayed : g.state.played_card = some pc)
    (hcaller : g.state.stack_caller = none)
    (hplayer : g.get_player_by_id pid = some player) :
    ((g.handleMessage (.callStack pid)).1.success = true ∧
     (g.handleMessage (.callStack pid)).2.state.stack_caller = some pid) ∧
    (∀ (h : CaboGame) (pid2 : String), h.state.stack_caller ≠ none →
      (h.handleMessage (.callStack pid2)).1.success = false ∧
      (h.handleMessage (.callStack pid2)).2 = h) ∧
    ((g.state.phase = GamePhase.playing ∨ g.state.phase = GamePhase.turnTransition) →
      (g.handleMessage (.callStack pid)).2.state.phase = GamePhase.stackCalled ∧
      (g.handleMessage (.callStack pid)).2.state.turn_transition_timer_id = none ∧
      (∀ t, g.state.turn_transition_timer_id = some t →
        ∀ e ∈ (g.handleMessage (.callStack pid)).2.pending_timeouts, e.1 ≠ t) ∧
      (g.handleMessage (.callStack pid)).2.state.stack_timer_id = some g.next_timer_id ∧
      (g.next_timer_id, g.now + 30) ∈ (g.handleMessage (.callStack pid)).2.pending_timeouts) ∧
    ((g.state.phase = GamePhase.waitingForSpecialAction ∨
      g.state.phase = GamePhase.kingViewPhase ∨ g.state.phase = GamePhase.kingSwapPhase) →
      (g.handleMessage (.callStack pid)).2
        = { g with state := { g.state with stack_caller := some pid } }) := by
  have hinv := reachable_EngineInv g hg
  have hphase : ¬ g.state.phase = GamePhase.stackCalled := fun hp => (hinv.1 hp) hcaller
  refine ⟨?_, ?_, ?_, ?_⟩
  · by_cases hsp : (g.state.phase = GamePhase.waitingForSpecialAction ∨
        g.state.phase = GamePhase.kingViewPhase ∨ g.state.phase = GamePhase.kingSwapPhase)
    · simp [CaboGame.handleMessage, CaboGame.handle_call_stack, hplayed, hplayer, hphase,
        hcaller, hsp]
    · simp [CaboGame.handleMessage, CaboGame.handle_call_stack, CaboGame.schedule_timeout,
        hplayed, hplayer, hphase, hcaller, hsp]
      try (split <;> rfl)
  · intro h pid2 hc
    cases hpc : h.state.played_card with
    | none => simp [CaboGame.handleMessage, CaboGame.handle_call_stack, hpc, rejected]
    | some c => simp [CaboGame.handleMessage, CaboGame.handle_call_stack, hpc, hc, rejected]
  · intro hpt
    have hsp : ¬ (g.state.phase = GamePhase.waitingForSpecialAction ∨
        g.state.phase = GamePhase.kingViewPhase ∨ g.state.phase = GamePhase.kingSwapPhase) := by
      rcases hpt with h | h <;> simp [h]
    cases htt0 : g.state.turn_transition_timer_id with
    | none =>
      refine ⟨?_, ?_, ?_, ?_, ?_⟩ <;>
        simp [CaboGame.handleMessage, CaboGame.handle_call_stack, CaboGame.schedule_timeout,
          hplayed, hplayer, hphase, hcaller, hsp, htt0]
    | some t0 =>
      have ht0lt : t0 < g.next_timer_id := hinv.2 t0 htt0
      refine ⟨?_, ?_, ?_, ?_, ?_⟩
      · simp [CaboGame.handleMessage, CaboGame.handle_call_stack, CaboGame.schedule_timeout,
          hplayed, hplayer, hphase, hcaller, hsp, htt0]
      · simp [CaboGame.handleMessage, CaboGame.handle_call_stack, CaboGame.schedule_timeout,
          hplayed, hplayer, hphase, hcaller, hsp, htt0]
      · intro t hteq e he
        injection hteq with hteq
        subst hteq
        simp only [CaboGame.handleMessage, CaboGame.handle_call_stack,
          CaboGame.schedule_timeout, hplayed, hplayer, hphase, hcaller, hsp, htt0] at he
        simp only [hcaller, hphase, if_false, ite_false, or_false, false_or,
          reduceCtorEq] at he
        exact mem_timeoutsPop_ne he
      · simp [CaboGame.handleMessage, CaboGame.handle_call_stack, CaboGame.schedule_timeout,
          hplayed, hplayer, hphase, hcaller, hsp, htt0]
      · simp [CaboGame.handleMessage, CaboGame.handle_call_stack, CaboGame.schedule_timeout,
          hplayed, hplayer, hphase, hcaller, hsp, htt0]
        exact mem_timeoutsPop_of (by simp) (by omega)
  · intro hsp
    simp [CaboGame.handleMessage, CaboGame.handle_call_stack, hplayed, hplayer, hphase,
      hcaller, hsp]

/-- `gPlaying` after `p0` drew the 7♠ and played it directly: the game waits
for the 7's view-own special action with the 7♠ as played card and no stack
caller. -/
def gSpecial : CaboGame :=
  runSteps ((gPlaying.addMessage (.drawCard "p0")).addMessage (.playDrawnCard "p0")) 2

theorem gSpecial_reachable : Reachable gSpecial :=
  reachable_runSteps 2 _
    (Reachable.intent _ _ (Reachable.intent _ _ gPlaying_reachable rfl) rfl)

/-- Witness for C5 at a concrete input: in `gSpecial` (a reachable
WAITING_FOR_SPECIAL_ACTION state with the 7♠ played and no caller), `p1`'s
CALL_STACK succeeds and only records `p1` as the stack caller. -/
theorem call_stack_protocol_witness :
    (gSpecial.handleMessage (.callStack "p1")).1.success = true ∧
    (gSpecial.handleMessage (.callStack "p1")).2
      = { gSpecial with state := { gSpecial.state with stack_caller := some "p1" } } :=
  ⟨(call_stack_protocol gSpecial gSpecial_reachable (Card.mk Rank.seven (some Suit.spades))
      "p1"
      (Player.mk "p1" "Bob"
        [Card.mk Rank.jack (some Suit.spades), Card.mk Rank.ten (some Suit.spades),
         Card.mk Rank.nine (some Suit.spades), Card.mk Rank.eight (some Suit.spades)] false)
      (by decide) (by decide) (by decide)).1.1,
   (call_stack_protocol gSpecial gSpecial_reachable (Card.mk Rank.seven (some Suit.spades))
      "p1"
      (Player.mk "p1" "Bob"
        [Card.mk Rank.jack (some Suit.spades), Card.mk Rank.ten (some Suit.spades),
         Card.mk Rank.nine (some Suit.spades), Card.mk Rank.eight (some Suit.spades)] false)
      (by decide) (by decide) (by decide)).2.2.2 (Or.inl (by decide))⟩

/-! ## C7: the message sequencer (`message_sequencer.py`)

Python dicts become association lists; `d[k] = v` replaces the first entry
with key `k` or appends a fresh one.  Timestamps and message/checkpoint
`data` payloads play no role in the claim and are not modelled. -/

/-- `d[k] = v` on an association list. -/
def dictSet {α β : Type} [DecidableEq α] (l : List (α × β)) (k : α) (v : β) :
    List (α × β) :=
  match l with
  | [] => [(k, v)]
  | (k', v') :: rest => if k' = k then (k, v) :: rest else (k', v') :: dictSet rest k v

/-- `SequencedMessage` (timestamp and data payload omitted). -/
structure SequencedMessage where
  seq_num : Nat
  message_type : String
deriving DecidableEq, Repr

/-- `RoomCheckpoint` (timestamp and data payload omitted). -/
structure RoomCheckpoint where
  seq_num : Nat
  phase : String
deriving DecidableEq, Repr

/-- `MessageSequencer.__init__`. -/
structure MessageSequencer where
  room_sequences : List (String × Nat) := []
  message_buffers : List (String × List SequencedMessage) := []
  checkpoints : List (String × RoomCheckpoint) := []
  player_checkpoints : List ((String × String) × RoomCheckpoint) := []
  client_sequences : List ((String × String) × Nat) := []
  max_buffer_size : Nat := 1000
deriving DecidableEq, Repr

/-- `MessageSequencer.get_next_sequence`. -/
def get_next_sequence (s : MessageSequencer) (room : String) : Nat × MessageSequencer :=
  let current := (List.lookup room s.room_sequences).getD 0
  let next := current + 1
  (next, { s with room_sequences := dictSet s.room_sequences room next })

/-- `MessageSequencer.create_checkpoint`: draws a sequence number, stores the
checkpoint and clears the room's message buffer. -/
def create_checkpoint (s : MessageSequencer) (room phase : String) :
    RoomCheckpoint × MessageSequencer :=
  let (seq, s) := get_next_sequence s room
  let cp : RoomCheckpoint := ⟨seq, phase⟩
  (cp, { s with checkpoints := dictSet s.checkpoints room cp,
                message_buffers := dictSet s.message_buffers room [] })

/-- `MessageSequencer.add_message`: draws a sequence number, appends to the
room buffer and trims the buffer to the last `max_buffer_size` entries. -/
def add_message (s : MessageSequencer) (room message_type : String) :
    SequencedMessage × MessageSequencer :=
  let (seq, s) := get_next_sequence s room
  let msg : SequencedMessage := ⟨seq, message_type⟩
  let buf := (List.lookup room s.message_buffers).getD [] ++ [msg]
  let buf := if buf.length > s.max_buffer_size then buf.drop (buf.length - s.max_buffer_size)
             else buf
  (msg, { s with message_buffers := dictSet s.message_buffers room buf })

/-- `MessageSequencer.create_player_checkpoint`: with `increment_seq = false`
(the default, and the only value used by the orchestrator) the checkpoint
REUSES the current sequence number without drawing a new one. -/
def create_player_checkpoint (s : MessageSequencer) (room session phase : String)
    (increment_seq : Bool) : RoomCheckpoint × MessageSequencer :=
  let (seq, s) :=
    if increment_seq then get_next_sequence s room
    else ((List.lookup room s.room_sequences).getD 0, s)
  let cp : RoomCheckpoint := ⟨seq, phase⟩
  (cp, { s with player_checkpoints := dictSet s.player_checkpoints (room, session) cp })

/-- The sequencer operations that tag messages or checkpoints with sequence
numbers. -/
inductive SeqOp where
  | addMessage (room message_type : String)
  | createCheckpoint (room phase : String)
  | createPlayerCheckpoint (room session phase : String) (increment_seq : Bool)
deriving DecidableEq, Repr

/-- Apply one operation; also report the `(room, seq)` pair when a NEW
sequence number was drawn by `get_next_sequence`. -/
def applySeqOp (s : MessageSequencer) : SeqOp → MessageSequencer × Option (String × Nat)
  | .addMessage room mtype =>
    let (m, s') := add_message s room mtype
    (s', some (room, m.seq_num))
  | .createCheckpoint room phase =>
    let (c, s') := create_checkpoint s room phase
    (s', some (room, c.seq_num))
  | .createPlayerCheckpoint room session phase inc =>
    let (c, s') := create_player_checkpoint s room session phase inc
    (s', if inc then some (room, c.seq_num) else none)

/-- Run a list of operations, collecting the drawn `(room, seq)` pairs in
order. -/
def runSeqOps (s : MessageSequencer) : List SeqOp → MessageSequencer × List (String × Nat)
  | [] => (s, [])
  | op :: rest =>
    let (s', a) := applySeqOp s op
    let (s'', log) := runSeqOps s' rest
    (s'', (match a with | some p => [p] | none => []) ++ log)

/-- The sequence numbers drawn for one room, in order. -/
def roomSeqs (log : List (String × Nat)) (room : String) : List Nat :=
  (log.filter (fun p => p.1 = room)).map Prod.snd

/-- `l` is the consecutive run `n, n+1, n+2, ...`. -/
def consecutiveFrom : Nat → List Nat → Prop
  | _, [] => True
  | n, x :: xs => x = n ∧ consecutiveFrom (n + 1) xs

theorem lookup_dictSet_self {β : Type} (l : List (String × β)) (k : String) (v : β) :
    List.lookup k (dictSet l k v) = some v := by
  induction l with
  | nil => simp [dictSet, List.lookup]
  | cons e rest ih =>
    obtain ⟨k', v'⟩ := e
    by_cases hk : k' = k
    · simp [dictSet, hk, List.lookup]
    · have hbe : (k == k') = false := beq_eq_false_iff_ne.mpr (Ne.symm hk)
      simp [dictSet, hk, List.lookup, hbe, ih]

theorem lookup_dictSet_ne {β : Type} (l : List (String × β)) (k k' : String) (v : β)
    (h : k' ≠ k) : List.lookup k' (dictSet l k v) = List.lookup k' l := by
  induction l with
  | nil => simp [dictSet, List.lookup, beq_eq_false_iff_ne.mpr h]
  | cons e rest ih =>
    obtain ⟨k0, v0⟩ := e
    by_cases hk : k0 = k
    · subst hk
      have hbe : (k' == k0) = false := beq_eq_false_iff_ne.mpr h
      simp [dictSet, List.lookup, hbe]
    · cases hbe : (k' == k0) with
      | true => simp [dictSet, hk, List.lookup, hbe]
      | false => simp [dictSet, hk, List.lookup, hbe, ih]

/-- How one operation affects a room's counter. -/
theorem applySeqOp_counter (s : MessageSequencer) (op : SeqOp) (room : String) :
    (List.lookup room (applySeqOp s op).1.room_sequences).getD 0
      = (List.lookup room s.room_sequences).getD 0
        + (match (applySeqOp s op).2 with
           | some p => if p.1 = room then 1 else 0
           | none => 0) ∧
    (∀ p, (applySeqOp s op).2 = some p →
      p.1 = room → p.2 = (List.lookup room s.room_sequences).getD 0 + 1) := by
  cases op with
  | addMessage r t =>
    by_cases hr : r = room
    · subst hr
      constructor
      · simp [applySeqOp, add_message, get_next_sequence, lookup_dictSet_self]
      · intro p hp hp1
        simp only [applySeqOp, add_message, get_next_sequence] at hp
        cases hp
        rfl
    · constructor
      · simp [applySeqOp, add_message, get_next_sequence,
          lookup_dictSet_ne _ _ _ _ (fun h => hr h.symm), hr]
      · intro p hp hp1
        simp only [applySeqOp, add_message, get_next_sequence] at hp
        cases hp
        exact absurd hp1 hr
  | createCheckpoint r ph =>
    by_cases hr : r = room
    · subst hr
      constructor
      · simp [applySeqOp, create_checkpoint, get_next_sequence, lookup_dictSet_self]
      · intro p hp hp1
        simp only [applySeqOp, create_checkpoint, get_next_sequence] at hp
        cases hp
        rfl
    · constructor
      · simp [applySeqOp, create_checkpoint, get_next_sequence,
          lookup_dictSet_ne _ _ _ _ (fun h => hr h.symm), hr]
      · intro p hp hp1
        simp only [applySeqOp, create_checkpoint, get_next_sequence] at hp
        cases hp
        exact absurd hp1 hr
  | createPlayerCheckpoint r sess ph inc =>
    cases inc with
    | false =>
      constructor
      · rfl
      · intro p hp hp1
        exact Option.noConfusion hp
    | true =>
      by_cases hr : r = room
      · subst hr
        constructor
        · simp [applySeqOp, create_player_checkpoint, get_next_sequence, lookup_dictSet_self]
        · intro p hp hp1
          simp only [applySeqOp, create_player_checkpoint, get_next_sequence] at hp
          cases hp
          rfl
      · constructor
        · simp [applySeqOp, create_player_checkpoint, get_next_sequence,
            lookup_dictSet_ne _ _ _ _ (fun h => hr h.symm), hr]
        · intro p hp hp1
          simp only [applySeqOp, create_player_checkpoint, get_next_sequence] at hp
          cases hp
          exact absurd hp1 hr

theorem roomSeqs_cons_self (room : String) (n : Nat) (log : List (String × Nat)) :
    roomSeqs ((room, n) :: log) room = n :: roomSeqs log room := by
  simp [roomSeqs]

theorem roomSeqs_cons_ne (r : String) (n : Nat) (log : List (String × Nat)) (room : String)
    (h : ¬ r = room) : roomSeqs ((r, n) :: log) room = roomSeqs log room := by
  simp [roomSeqs, h]

theorem runSeqOps_consecutive (ops : List SeqOp) (room : String) (s : MessageSequencer) :
    consecutiveFrom ((List.lookup room s.room_sequences).getD 0 + 1)
      (roomSeqs (runSeqOps s ops).2 room) := by
  induction ops generalizing s with
  | nil => trivial
  | cons op rest ih =>
    have hc := applySeqOp_counter s op room
    unfold runSeqOps
    cases ha : (applySeqOp s op).2 with
    | none =>
      have := ih (applySeqOp s op).1
      rw [hc.1, ha] at this
      simpa [roomSeqs, ha] using this
    | some p =>
      obtain ⟨r0, n0⟩ := p
      by_cases hr : r0 = room
      · rw [hr] at ha
        have hn0 : n0 = (List.lookup room s.room_sequences).getD 0 + 1 :=
          hc.2 (room, n0) ha rfl
        have hrest := ih (applySeqOp s op).1
        rw [hc.1, ha] at hrest
        simp only [if_pos rfl] at hrest
        simp only [ha, List.singleton_append]
        rw [roomSeqs_cons_self]
        exact ⟨hn0, by simpa [hn0] using hrest⟩
      · have hrest := ih (applySeqOp s op).1
        rw [hc.1, ha] at hrest
        simp only [if_neg hr] at hrest
        simp only [ha, List.singleton_append]
        rw [roomSeqs_cons_ne _ _ _ _ hr]
        simpa using hrest

/-- The sequencer with empty state. -/
def freshSequencer : MessageSequencer := {}

/-- C7 amended: the sequence numbers DRAWN by `get_next_sequence` for a room
(those given to sequenced messages, room checkpoints, and player checkpoints
created with `increment_seq = true`) form the consecutive run 1, 2, 3, … —
but a player checkpoint created with `increment_seq = false` (the only mode
the orchestrator uses) is tagged with the current sequence number again,
without drawing a new one. -/
theorem sequencer_assignment (ops : List SeqOp) (room : String) :
    consecutiveFrom 1 (roomSeqs (runSeqOps freshSequencer ops).2 room) ∧
    (∀ (s : MessageSequencer) (sess phase : String),
      (create_player_checkpoint s room sess phase false).1.seq_num
        = (List.lookup room s.room_sequences).getD 0) :=
  ⟨runSeqOps_consecutive ops room freshSequencer, fun _ _ _ => rfl⟩

/-- C7 counterexample: starting from a fresh sequencer, `add_message` tags a
message with sequence number 1, and a following
`create_player_checkpoint(..., increment_seq=False)` tags a checkpoint with
sequence number 1 AGAIN — the successive (message, checkpoint) pair of
assigned numbers repeats instead of increasing. -/
theorem player_checkpoint_repeats_seq :
    (add_message freshSequencer "r" "game_event").1.seq_num = 1 ∧
    (create_player_checkpoint (add_message freshSequencer "r" "game_event").2
        "r" "sess" "IN_GAME" false).1.seq_num = 1 := by
  decide

/-! ## C8: `ConnectionManager.send_to_session` and the outbox

The WebSocket transport is modelled by a handle whose `send_ok` flag says
whether `send_json` succeeds; the Redis outbox stream `outbox:{session}`
becomes a per-session list of `(seq, message)` pairs capped at
`outbox_size` (the `xadd maxlen` trim); TTLs are not modelled.  The
exception path of a failed send (which disconnects the connection into the
grace period) is reported as the outcome `sendFailed` and not modelled
further — no claim concerns it. -/

/-- An outbound JSON message; only the `seq_num` key matters here, the rest
of the payload is left uninterpreted.  `seq_num = some 0` models a message whose
`seq_num` field is the falsy `0`. -/
structure Msg where
  seq_num : Option Nat := none
  body : String := ""
deriving DecidableEq, Repr

/-- `ConnectionInfo` (heartbeat bookkeeping kept, timestamps as numbers). -/
structure ConnInfo where
  connection_id : String
  session_id : String
  room_id : Option String := none
  nickname : Option String := none
  is_host : Bool := false
  connected_at : Nat := 0
  last_ping : Nat := 0
  last_pong : Nat := 0
  last_ack_seq : Nat := 0
  state : String := "active"
deriving DecidableEq, Repr

/-- A live transport handle; `send_ok` models whether `send_json` succeeds. -/
structure WebSocket where
  ws_id : Nat
  send_ok : Bool := true
deriving DecidableEq, Repr

/-- The `ConnectionManager`'s local maps plus the per-session outboxes. -/
structure ConnectionManager where
  connections : List (String × ConnInfo) := []
  session_to_connection : List (String × String) := []
  websockets : List (String × WebSocket) := []
  outboxes : List (String × List (Nat × Msg)) := []
  outbox_size : Nat := 100
deriving DecidableEq, Repr

/-- `ConnectionManager.add_to_outbox`: append `(seq, msg)` to the session's
stream, trimmed to the last `outbox_size` entries. -/
def add_to_outbox (cm : ConnectionManager) (session_id : String) (seq : Nat) (msg : Msg) :
    ConnectionManager :=
  let buf := (List.lookup session_id cm.outboxes).getD [] ++ [(seq, msg)]
  let buf := if buf.length > cm.outbox_size then buf.drop (buf.length - cm.outbox_size)
             else buf
  { cm with outboxes := dictSet cm.outboxes session_id buf }

/-- What became of a `send_to_session` call. -/
inductive SendOutcome where
  | noConnection
  | notActive
  | noWebsocket
  | delivered
  | sendFailed
deriving DecidableEq, Repr

/-- `ConnectionManager.send_to_session`.  With no connection id, an inactive
connection, or no websocket the call returns having sent nothing and queued
nothing; on a successful send the message is added to the outbox when its
`seq_num` is truthy. -/
def send_to_session (cm : ConnectionManager) (session_id : String) (msg : Msg) :
    ConnectionManager × SendOutcome :=
  match List.lookup session_id cm.session_to_connection with
  | none => (cm, SendOutcome.noConnection)
  | some connection_id =>
    match List.lookup connection_id cm.connections with
    | none => (cm, SendOutcome.notActive)
    | some conn_info =>
      if conn_info.state ≠ "active" then (cm, SendOutcome.notActive)
      else
        match List.lookup connection_id cm.websockets with
        | none => (cm, SendOutcome.noWebsocket)
        | some websocket =>
          if websocket.send_ok then
            if (msg.seq_num.getD 0) ≠ 0 then
              (add_to_outbox cm session_id (msg.seq_num.getD 0) msg, SendOutcome.delivered)
            else (cm, SendOutcome.delivered)
          else (cm, SendOutcome.sendFailed)

/-- A manager that knows no connection for session `"s1"` but has an
(empty) outbox history for it. -/
def cmNoConn : ConnectionManager :=
  { connections := [], session_to_connection := [], websockets := [],
    outboxes := [("s1", [])], outbox_size := 100 }

/-- C8 counterexample: for a session with no active connection,
`send_to_session` returns immediately — the manager (outbox included) is
UNCHANGED, so the message is dropped entirely rather than being enqueued to
the outbox as the claim states. -/
theorem send_without_connection_drops_message :
    (send_to_session cmNoConn "s1" (Msg.mk (some 7) "game_event")).2
      = SendOutcome.noConnection ∧
    (send_to_session cmNoConn "s1" (Msg.mk (some 7) "game_event")).1 = cmNoConn ∧
    List.lookup "s1" (send_to_session cmNoConn "s1" (Msg.mk (some 7) "game_event")).1.outboxes
      = some [] := by
  decide

/-- C8 amended: when the session has no active connection (no connection id,
unknown connection, or a non-active state) the message is dropped entirely —
the manager, its outboxes included, is returned unchanged; when live
delivery succeeds and the message carries a truthy `seq_num`, the
`(seq, msg)` pair is appended to the session's outbox. -/
theorem send_to_session_outbox (cm : ConnectionManager) (sid : String) (msg : Msg) :
    (List.lookup sid cm.session_to_connection = none →
      send_to_session cm sid msg = (cm, SendOutcome.noConnection)) ∧
    (∀ cid, List.lookup sid cm.session_to_connection = some cid →
      (List.lookup cid cm.connections = none ∨
       ∃ ci, List.lookup cid cm.connections = some ci ∧ ci.state ≠ "active") →
      send_to_session cm sid msg = (cm, SendOutcome.notActive)) ∧
    (∀ cid ci ws n, List.lookup sid cm.session_to_connection = some cid →
      List.lookup cid cm.connections = some ci →
      ci.state = "active" →
      List.lookup cid cm.websockets = some ws →
      ws.send_ok = true →
      msg.seq_num = some n → n ≠ 0 →
      send_to_session cm sid msg = (add_to_outbox cm sid n msg, SendOutcome.delivered) ∧
      List.lookup sid (add_to_outbox cm sid n msg).outboxes
        = some (let buf := (List.lookup sid cm.outboxes).getD [] ++ [(n, msg)]
                if buf.length > cm.outbox_size then buf.drop (buf.length - cm.outbox_size)
                else buf)) := by
  refine ⟨?_, ?_, ?_⟩
  · intro h
    simp [send_to_session, h]
  · intro cid hcid hother
    rcases hother with h | ⟨ci, hci, hstate⟩
    · simp [send_to_session, hcid, h]
    · simp [send_to_session, hcid, hci, hstate]
  · intro cid ci ws n hcid hci hstate hws hok hseq hn
    constructor
    · simp [send_to_session, hcid, hci, hstate, hws, hok, hseq, hn]
    · simp only [add_to_outbox]
      exact lookup_dictSet_self _ _ _

/-- Witness for the amended C8 theorem: the no-connection branch at
`cmNoConn`, and the delivered-with-seq branch at a one-connection manager. -/
theorem send_to_session_outbox_witness :
    send_to_session cmNoConn "s0" (Msg.mk (some 3) "x")
      = (cmNoConn, SendOutcome.noConnection) ∧
    send_to_session
        { connections := [("c1", ConnInfo.mk "c1" "s1" none none false 0 0 0 0 "active")],
          session_to_connection := [("s1", "c1")],
          websockets := [("c1", WebSocket.mk 1 true)],
          outboxes := [], outbox_size := 100 } "s1" (Msg.mk (some 3) "x")
      = (add_to_outbox
          { connections := [("c1", ConnInfo.mk "c1" "s1" none none false 0 0 0 0 "active")],
            session_to_connection := [("s1", "c1")],
            websockets := [("c1", WebSocket.mk 1 true)],
            outboxes := [], outbox_size := 100 } "s1" 3 (Msg.mk (some 3) "x"),
         SendOutcome.delivered) :=
  ⟨(send_to_session_outbox cmNoConn "s0" (Msg.mk (some 3) "x")).1 (by decide),
   ((send_to_session_outbox _ "s1" (Msg.mk (some 3) "x")).2.2 "c1"
      (ConnInfo.mk "c1" "s1" none none false 0 0 0 0 "active") (WebSocket.mk 1 true) 3
      (by decide) (by decide) (by decide) (by decide) (by decide) (by decide)
      (by decide)).1⟩

end Cabo
